import Mathlib

/-!
# Pixelkit controller drivers: DB9 (`src/db9.c`), NES (`src/nes.c`), TG16 (`trunk/src/tg16.c`)

A shallow embedding of the three polling drivers.  Each driver's file-scope
`static` variables become the fields of a state record that every operation
takes and returns; the hardware input registers (`PINC`, `PINB`) are passed in
as the values they hold at each sampling point.  Output lines (`PORTx`,
`DDRx`, `SREG`) and the busy-wait delays do not influence any computed value
and are left out.

An `unsigned char` is a `Byte` (`Fin 256`); arithmetic is carried out on
naturals, as C does after integer promotion, and narrowed with `toByte` where
the source assigns to an `unsigned char`.
-/

namespace Pixelkit

/-! ## Machine types and the C library -/

/-- An AVR `unsigned char`. -/
abbrev Byte := Fin 256

/-- Conversion of an integer value to `unsigned char`. -/
def toByte (n : Nat) : Byte := ⟨n % 256, Nat.mod_lt n (by decide)⟩

/-- Conversion of an `int` to `char` (signed, 8 bit: the avr-gcc default). -/
def toChar (i : Int) : Int := (i + 128) % 256 - 128

/-- An array of `n` bytes. -/
abbrev Bytes (n : Nat) := Fin n → Byte

/-- The loop of the C library's `memcmp`, as avr-libc computes it: the
difference of the first pair of bytes that differ, both read as
`unsigned char`, and `0` when there is none. -/
def memcmpList : List Byte → List Byte → Int
  | a :: as, b :: bs => if a = b then memcmpList as bs else (a.val : Int) - (b.val : Int)
  | _, _ => 0

/-- The call `memcmp(s1, s2, n)` on two arrays of `n` bytes. -/
def memcmp {n : Nat} (s1 s2 : Bytes n) : Int :=
  memcmpList (List.ofFn s1) (List.ofFn s2)

/-- The call `memcpy(dst, src, n)` on two arrays of `n` bytes: the new
contents of `dst`. -/
def memcpy {n : Nat} (_dst src : Bytes n) : Bytes n := src

/-- The statement `if (cond) { v |= m; }` on an `unsigned char` variable. -/
def orIf (cond : Bool) (v : Byte) (m : Nat) : Byte :=
  if cond then toByte (v.val ||| m) else v

/-- The input registers read by one `SAMPLE()`. -/
structure Pins where
  PINC : Byte
  PINB : Byte
deriving DecidableEq

/-! ## DB9 driver (`src/db9.c`) -/

namespace DB9

def REPORT_SIZE : Nat := 4
def GAMEPAD_BYTES : Nat := 4
def READ_CONTROLLER_SIZE : Nat := 5

def CTL_ID_ATARI : Byte := 0x00
def CTL_ID_SMS : Byte := 0x01
def CTL_ID_GENESIS3 : Byte := 0x02
def CTL_ID_GENESIS6 : Byte := 0x03

/-- The preprocessor definition `isGenesis(a)`. -/
def isGenesis (a : Byte) : Bool := decide (a.val ≥ CTL_ID_GENESIS3.val)

/-- The function `SAMPLE()`: the six input lines in the order
Up, Down, Left, Right, BtnB/BtnA, BtnC/BtnStart. -/
def SAMPLE (p : Pins) : Byte :=
  let c := p.PINC.val
  let b := p.PINB.val
  let res := toByte ((c &&& 0x20) >>> 5)
  let res := toByte (res.val ||| ((c &&& 0x10) >>> 3))
  let res := toByte (res.val ||| ((c &&& 0x08) >>> 1))
  let res := toByte (res.val ||| ((c &&& 0x04) <<< 1))
  let res := toByte (res.val ||| ((c &&& 0x02) <<< 3))
  let res := toByte (res.val ||| (b &&& 0x20))
  res

/-- The file-scope and function-scope `static` variables of `db9.c`. -/
structure State where
  cur_id : Byte
  last_read_controller_bytes : Bytes 4
  last_reported_controller_bytes : Bytes 4
  /-- The variable `static int first` of `db9Changed`. -/
  first : Int
deriving DecidableEq

/-- The state at program start: `cur_id = CTL_ID_GENESIS3`, `first = 1`, the
arrays zero-initialised. -/
def initial : State :=
  { cur_id := CTL_ID_GENESIS3
    last_read_controller_bytes := fun _ => 0
    last_reported_controller_bytes := fun _ => 0
    first := 1 }

/-- What the input registers hold at the five sampling points of
`readController`, in the order they are sampled (`a`, `b`, `d`, `e`, `c`). -/
structure Reads where
  pa : Pins
  pb : Pins
  pd : Pins
  pe : Pins
  pc : Pins
deriving DecidableEq

/-- The function `readController(bits)`: `bits` is the caller's array as it
is on entry, the result is the array on return. -/
def readController (cur_id : Byte) (hw : Reads) (bits : Bytes 5) : Bytes 5 :=
  let a := SAMPLE hw.pa
  if cur_id = CTL_ID_ATARI ∨ cur_id = CTL_ID_SMS then
    let bits := Function.update bits 0 a
    let bits := Function.update bits 1 0xff
    let bits := Function.update bits 2 0xff
    bits
  else
    let b := SAMPLE hw.pb
    let d := SAMPLE hw.pd
    let e := SAMPLE hw.pe
    let c := SAMPLE hw.pc
    let bits := Function.update bits 0 a
    let bits := Function.update bits 1 b
    let bits := Function.update bits 2 c
    let bits := Function.update bits 3 d
    let bits := Function.update bits 4 e
    bits

/-- The function `db9Update()`: `data0` is the local array `data` as it is
before `readController` fills it. -/
def db9Update (s : State) (hw : Reads) (data0 : Bytes 5) : State :=
  let x : Nat := 128
  let y : Nat := 128
  let data := readController s.cur_id hw data0
  let data := Function.update data 0 (toByte ((data 0).val ^^^ 0xff))
  let data := Function.update data 1 (toByte ((data 1).val ^^^ 0xff))
  let data := Function.update data 2 (toByte ((data 2).val ^^^ 0xff))
  let y := if (data 0).val &&& 1 ≠ 0 then 0 else y
  let y := if (data 0).val &&& 2 ≠ 0 then 255 else y
  let x := if (data 0).val &&& 4 ≠ 0 then 0 else x
  let x := if (data 0).val &&& 8 ≠ 0 then 255 else x
  let b0 := toByte x
  let b1 := toByte y
  let b2 : Byte := 0
  let b3 : Byte := 0
  if isGenesis s.cur_id then
    if s.cur_id ≠ CTL_ID_GENESIS6 then
      let b2 := orIf ((data 1).val &&& 0x10 ≠ 0) b2 0x01
      let b2 := orIf ((data 0).val &&& 0x10 ≠ 0) b2 0x02
      let b2 := orIf ((data 0).val &&& 0x20 ≠ 0) b2 0x04
      let b2 := orIf ((data 1).val &&& 0x20 ≠ 0) b2 0x08
      { s with last_read_controller_bytes := ![b0, b1, b2, b3] }
    else
      let b2 := orIf ((data 2).val &&& 0x02 ≠ 0) b2 0x01
      let b2 := orIf ((data 0).val &&& 0x10 ≠ 0) b2 0x02
      let b2 := orIf ((data 0).val &&& 0x20 ≠ 0) b2 0x04
      let b2 := orIf ((data 2).val &&& 0x01 ≠ 0) b2 0x08
      let b2 := orIf ((data 1).val &&& 0x10 ≠ 0) b2 0x10
      let b2 := orIf ((data 2).val &&& 0x08 ≠ 0) b2 0x20
      let b3 := orIf ((data 2).val &&& 0x04 ≠ 0) b3 0x01
      let b3 := orIf ((data 1).val &&& 0x20 ≠ 0) b3 0x02
      { s with last_read_controller_bytes := ![b0, b1, b2, b3] }
  else
    let b2 := orIf ((data 0).val &&& 0x10 ≠ 0) b2 0x01
    let b2 := orIf ((data 0).val &&& 0x20 ≠ 0) b2 0x02
    { s with last_read_controller_bytes := ![b0, b1, b2, b3] }

/-- The function `db9Init()`: `idRead` is what the hardware presents to the
identification read and `pollRead` to the read of the `db9Update()` call;
`bits0` and `data0` are the two local arrays as they are on entry.  Returns
the `char` result and the new state. -/
def db9Init (s : State) (idRead pollRead : Reads) (bits0 data0 : Bytes 5) : Int × State :=
  let bits := readController s.cur_id idRead bits0
  let s := { s with cur_id := CTL_ID_SMS }
  if (bits 0).val &&& 0xf = 0x3 then
    (-1, s)
  else
    let s :=
      if (bits 0).val &&& 0xf = 0xf then
        if (bits 1).val &&& 0xf = 0x3 then
          if (bits 3).val &&& 0xf ≠ 0x3 ∨ (bits 4).val &&& 0xf ≠ 0x3 then
            { s with cur_id := CTL_ID_GENESIS6 }
          else
            { s with cur_id := CTL_ID_GENESIS3 }
        else s
      else s
    let s := if (bits 1).val &&& 0x20 = 0 then { s with cur_id := CTL_ID_GENESIS6 } else s
    let s := db9Update s pollRead data0
    (0, s)

/-- The function `db9Changed(id)`: the `char` result and the new state. -/
def db9Changed (s : State) (_id : Int) : Int × State :=
  if s.first ≠ 0 then
    (1, { s with first := 0 })
  else
    (toChar (memcmp s.last_read_controller_bytes s.last_reported_controller_bytes), s)

/-- The function `db9BuildReport(reportBuffer, id)`: `reportBuffer` is `none`
for a `NULL` pointer and otherwise the first four bytes behind the pointer.
Returns the `char` result, the buffer after the call and the new state. -/
def db9BuildReport (s : State) (reportBuffer : Option (Bytes 4)) (_id : Int) :
    Int × Option (Bytes 4) × State :=
  let reportBuffer := match reportBuffer with
    | some buf => some (memcpy buf s.last_read_controller_bytes)
    | none => none
  let reported := memcpy s.last_reported_controller_bytes s.last_read_controller_bytes
  let s := { s with last_reported_controller_bytes := reported }
  (toChar REPORT_SIZE, reportBuffer, s)

end DB9

/-! ## NES driver (`src/nes.c`) -/

namespace NES

def REPORT_SIZE : Nat := 3
def GAMEPAD_BYTES : Nat := 1

def NES_DATA_BIT : Nat := 1 <<< 3

/-- The preprocessor definition `NES_GET_DATA()`, on the value `PINC` holds
when it is read. -/
def NES_GET_DATA (pinc : Byte) : Nat := pinc.val &&& NES_DATA_BIT

/-- The file-scope `static` variables of `nes.c`. -/
structure State where
  last_read_controller_bytes : Bytes 1
  last_reported_controller_bytes : Bytes 1
deriving DecidableEq

/-- The state at program start: both arrays zero-initialised. -/
def initial : State :=
  { last_read_controller_bytes := fun _ => 0
    last_reported_controller_bytes := fun _ => 0 }

/-- The function `nesInit()`: it only configures the port. -/
def nesInit (s : State) : Int × State := (0, s)

/-- One turn of the loop of `nesUpdate`: `tmp <<= 1`, then
`if (!NES_GET_DATA()) { tmp |= 1; }`. -/
def shiftIn (tmp : Byte) (pinc : Byte) : Byte :=
  let tmp := toByte (tmp.val <<< 1)
  if NES_GET_DATA pinc = 0 then toByte (tmp.val ||| 1) else tmp

/-- The function `nesUpdate()`: `hw i` is what `PINC` holds in clock cycle `i`. -/
def nesUpdate (s : State) (hw : Fin 8 → Byte) : State :=
  let tmp := (List.ofFn hw).foldl shiftIn 0
  { s with last_read_controller_bytes := Function.update s.last_read_controller_bytes 0 tmp }

/-- The function `nesChanged(id)`. -/
def nesChanged (s : State) (_id : Int) : Int × State :=
  (toChar (memcmp s.last_read_controller_bytes s.last_reported_controller_bytes), s)

/-- The function `nesBuildReport(reportBuffer, id)`: `reportBuffer` is `none`
for a `NULL` pointer and otherwise the first three bytes behind the pointer.
Returns the `char` result, the buffer after the call and the new state. -/
def nesBuildReport (s : State) (reportBuffer : Option (Bytes 3)) (_id : Int) :
    Int × Option (Bytes 3) × State :=
  let reportBuffer := match reportBuffer with
    | some buf =>
      let x : Nat := 0x80
      let y : Nat := 0x80
      let lrcb := (s.last_read_controller_bytes 0).val
      let x := if lrcb &&& 0x1 ≠ 0 then 0xff else x
      let x := if lrcb &&& 0x2 ≠ 0 then 0 else x
      let y := if lrcb &&& 0x4 ≠ 0 then 0xff else y
      let y := if lrcb &&& 0x8 ≠ 0 then 0 else y
      let buf := Function.update buf 0 (toByte x)
      let buf := Function.update buf 1 (toByte y)
      let buf := Function.update buf 2 (toByte ((lrcb &&& 0x80) >>> 7))
      let buf := Function.update buf 2 (toByte ((buf 2).val ||| ((lrcb &&& 0x40) >>> 5)))
      let buf := Function.update buf 2 (toByte ((buf 2).val ||| ((lrcb &&& 0x20) >>> 3)))
      let buf := Function.update buf 2 (toByte ((buf 2).val ||| ((lrcb &&& 0x10) >>> 1)))
      some buf
    | none => none
  let reported := memcpy s.last_reported_controller_bytes s.last_read_controller_bytes
  let s := { s with last_reported_controller_bytes := reported }
  (toChar REPORT_SIZE, reportBuffer, s)

end NES

/-! ## TG16 driver (`trunk/src/tg16.c`) -/

namespace TG16

def REPORT_SIZE : Nat := 3
def GAMEPAD_BYTES : Nat := 3

/-- The file-scope and function-scope `static` variables of `tg16.c`. -/
structure State where
  last_read_controller_bytes : Bytes 3
  last_reported_controller_bytes : Bytes 3
  /-- The variable `static int first` of `tg16_Changed`. -/
  first : Int
deriving DecidableEq

/-- The state at program start: `first = 1`, the arrays zero-initialised. -/
def initial : State :=
  { last_read_controller_bytes := fun _ => 0
    last_reported_controller_bytes := fun _ => 0
    first := 1 }

/-- The function `readController()`: `pincA` is what `PINC` holds at the read
with data-select high, `pincB` at the read with data-select low. -/
def readController (pincA pincB : Byte) : Byte :=
  let a := toByte ((pincA.val &&& 0x3c) >>> 2)
  let b := toByte ((pincB.val &&& 0x3c) >>> 2)
  toByte (a.val ||| (b.val <<< 4))

/-- The function `tg16_Update()`. -/
def tg16_Update (s : State) (pincA pincB : Byte) : State :=
  let x : Nat := 128
  let y : Nat := 128
  let data := readController pincA pincB
  let data := toByte (data.val ^^^ 0xff)
  let y := if data.val &&& 0x08 ≠ 0 then 0 else y
  let y := if data.val &&& 0x02 ≠ 0 then 255 else y
  let x := if data.val &&& 0x01 ≠ 0 then 0 else x
  let x := if data.val &&& 0x04 ≠ 0 then 255 else x
  let b0 := toByte x
  let b1 := toByte y
  let b2 : Byte := 0
  let b2 := orIf (data.val &&& 0x80 ≠ 0) b2 0x01
  let b2 := orIf (data.val &&& 0x40 ≠ 0) b2 0x02
  let b2 := orIf (data.val &&& 0x20 ≠ 0) b2 0x04
  let b2 := orIf (data.val &&& 0x10 ≠ 0) b2 0x08
  { s with last_read_controller_bytes := ![b0, b1, b2] }

/-- The function `tg16_Init()`: the port set-up, then one `tg16_Update()`. -/
def tg16_Init (s : State) (pincA pincB : Byte) : Int × State :=
  let s := tg16_Update s pincA pincB
  (0, s)

/-- The function `tg16_Changed(id)`: the `char` result and the new state. -/
def tg16_Changed (s : State) (_id : Int) : Int × State :=
  if s.first ≠ 0 then
    (1, { s with first := 0 })
  else
    (toChar (memcmp s.last_read_controller_bytes s.last_reported_controller_bytes), s)

/-- The function `tg16_BuildReport(reportBuffer, id)`: `reportBuffer` is
`none` for a `NULL` pointer and otherwise the first three bytes behind the
pointer.  Returns the `char` result, the buffer after the call and the new
state. -/
def tg16_BuildReport (s : State) (reportBuffer : Option (Bytes 3)) (_id : Int) :
    Int × Option (Bytes 3) × State :=
  let reportBuffer := match reportBuffer with
    | some buf => some (memcpy buf s.last_read_controller_bytes)
    | none => none
  let reported := memcpy s.last_reported_controller_bytes s.last_read_controller_bytes
  let s := { s with last_reported_controller_bytes := reported }
  (toChar REPORT_SIZE, reportBuffer, s)

end TG16

/-! ## Call sequences and the reference definition of `has_changed` -/

/-- Reference definition of `has_changed`, following the specification: true
on the very first invocation, otherwise true iff the current state differs
byte-for-byte from the last reported state. -/
def has_changed_ref {n : Nat} (firstInvocation : Bool) (current lastReported : Bytes n) : Bool :=
  firstInvocation || decide (∃ i, current i ≠ lastReported i)

namespace DB9

/-- One call of an entry point of the DB9 driver, with what the hardware and
the caller present to it. -/
inductive Op where
  | init (idRead pollRead : Reads) (bits0 data0 : Bytes 5)
  | update (hw : Reads) (data0 : Bytes 5)
  | changed (id : Int)
  | buildReport (reportBuffer : Option (Bytes 4)) (id : Int)

/-- Whether the call is a call of `db9Changed`. -/
def Op.isChanged : Op → Bool
  | .changed _ => true
  | _ => false

/-- The state after one call. -/
def step (s : State) : Op → State
  | .init idRead pollRead bits0 data0 => (db9Init s idRead pollRead bits0 data0).2
  | .update hw data0 => db9Update s hw data0
  | .changed id => (db9Changed s id).2
  | .buildReport reportBuffer id => (db9BuildReport s reportBuffer id).2.2

/-- The state after a sequence of calls. -/
def run (s : State) (ops : List Op) : State := ops.foldl step s

end DB9

namespace TG16

/-- One call of an entry point of the TG16 driver, with what the hardware and
the caller present to it. -/
inductive Op where
  | init (pincA pincB : Byte)
  | update (pincA pincB : Byte)
  | changed (id : Int)
  | buildReport (reportBuffer : Option (Bytes 3)) (id : Int)

/-- Whether the call is a call of `tg16_Changed`. -/
def Op.isChanged : Op → Bool
  | .changed _ => true
  | _ => false

/-- The state after one call. -/
def step (s : State) : Op → State
  | .init pincA pincB => (tg16_Init s pincA pincB).2
  | .update pincA pincB => tg16_Update s pincA pincB
  | .changed id => (tg16_Changed s id).2
  | .buildReport reportBuffer id => (tg16_BuildReport s reportBuffer id).2.2

/-- The state after a sequence of calls. -/
def run (s : State) (ops : List Op) : State := ops.foldl step s

end TG16

/-! ## Concrete hardware inputs used in the examples -/

namespace DB9

/-- An array of five zero bytes. -/
def zero5 : Bytes 5 := fun _ => 0

/-- Hardware presenting the low nibbles `0xf, 0x3, 0x3, 0x0, 0x0` in phases
1 to 5, Start released. -/
def hwGenesis6 : Reads :=
  { pa := ⟨0x3c, 0x20⟩, pb := ⟨0x30, 0x20⟩, pd := ⟨0x00, 0x20⟩, pe := ⟨0x00, 0x20⟩,
    pc := ⟨0x30, 0x20⟩ }

/-- Hardware presenting the low nibble `0x3` in phase 1 and Start held
(line low) in phase 2. -/
def hwMultitapStart : Reads :=
  { pa := ⟨0x30, 0x20⟩, pb := ⟨0x3e, 0x00⟩, pd := ⟨0x3e, 0x20⟩, pe := ⟨0x3e, 0x20⟩,
    pc := ⟨0x3e, 0x20⟩ }

/-- Hardware presenting the low nibble `0x3` in phase 1 and Start released
(line high) in phase 2. -/
def hwMultitap : Reads :=
  { pa := ⟨0x30, 0x20⟩, pb := ⟨0x3e, 0x20⟩, pd := ⟨0x3e, 0x20⟩, pe := ⟨0x3e, 0x20⟩,
    pc := ⟨0x3e, 0x20⟩ }

/-- Hardware presenting the low nibbles `0xf, 0x3` in phases 1 and 2 and
Start held in phase 2. -/
def hwStartHeld : Reads :=
  { pa := ⟨0x3c, 0x20⟩, pb := ⟨0x30, 0x00⟩, pd := ⟨0x30, 0x20⟩, pe := ⟨0x30, 0x20⟩,
    pc := ⟨0x30, 0x20⟩ }

end DB9

namespace DB9

/-- Hardware with all six input lines high in every phase: nothing pressed,
or no controller attached. -/
def hwIdle : Reads :=
  { pa := ⟨0x3e, 0x20⟩, pb := ⟨0x3e, 0x20⟩, pd := ⟨0x3e, 0x20⟩, pe := ⟨0x3e, 0x20⟩,
    pc := ⟨0x3e, 0x20⟩ }

/-- Hardware of a one-button joystick with the fire button held: line
BtnB/BtnA low, all other lines high. -/
def hwFire : Reads :=
  { pa := ⟨0x3c, 0x20⟩, pb := ⟨0x3c, 0x20⟩, pd := ⟨0x3c, 0x20⟩, pe := ⟨0x3c, 0x20⟩,
    pc := ⟨0x3c, 0x20⟩ }

end DB9

namespace NES

/-- An array of three zero bytes. -/
def zero3 : Bytes 3 := fun _ => 0

/-- The data line reads high in all eight clock cycles: nothing pressed, or
no controller attached. -/
def hwIdle : Fin 8 → Byte := fun _ => 0x08

/-- The data line reads low in clock cycle 7 (Left) only. -/
def hwLeft : Fin 8 → Byte := fun i => if i = 6 then 0x00 else 0x08

/-- The data line reads low in clock cycles 7 and 8 (Left and Right). -/
def hwLeftRight : Fin 8 → Byte := fun i => if i = 6 ∨ i = 7 then 0x00 else 0x08

/-- The data line reads low in clock cycle 1 only. -/
def hwFirstButton : Fin 8 → Byte := fun i => if i = 0 then 0x00 else 0x08

end NES

/-! ## Lemmas on the C library model -/

theorem memcmpList_bound (l1 l2 : List Byte) :
    -255 ≤ memcmpList l1 l2 ∧ memcmpList l1 l2 ≤ 255 := by
  induction l1 generalizing l2 with
  | nil => simp [memcmpList]
  | cons a as ih =>
    cases l2 with
    | nil => simp [memcmpList]
    | cons b bs =>
      simp only [memcmpList]
      split
      · exact ih bs
      · have ha := a.isLt
        have hb := b.isLt
        omega

theorem memcmpList_eq_zero_iff (l1 l2 : List Byte) (h : l1.length = l2.length) :
    memcmpList l1 l2 = 0 ↔ l1 = l2 := by
  induction l1 generalizing l2 with
  | nil =>
    cases l2 with
    | nil => simp [memcmpList]
    | cons b bs => simp at h
  | cons a as ih =>
    cases l2 with
    | nil => simp at h
    | cons b bs =>
      simp only [List.length_cons, Nat.add_right_cancel_iff] at h
      simp only [memcmpList]
      by_cases hab : a = b
      · simp [hab, ih bs h]
      · have hv : a.val ≠ b.val := fun hv => hab (Fin.ext hv)
        simp only [hab, if_false, List.cons.injEq, false_and, iff_false]
        omega

theorem toChar_memcmp_eq_zero_iff {n : Nat} (s1 s2 : Bytes n) :
    toChar (memcmp s1 s2) = 0 ↔ s1 = s2 := by
  have hb := memcmpList_bound (List.ofFn s1) (List.ofFn s2)
  have hz := memcmpList_eq_zero_iff (List.ofFn s1) (List.ofFn s2) (by simp)
  unfold toChar memcmp
  rw [← List.ofFn_inj, ← hz]
  omega

theorem bytes_ne_iff {n : Nat} (s1 s2 : Bytes n) : s1 ≠ s2 ↔ ∃ i, s1 i ≠ s2 i := by
  constructor
  · intro h
    by_contra hne
    exact h (funext fun i => by_contra fun hi => hne ⟨i, hi⟩)
  · rintro ⟨i, hi⟩ h
    exact hi (by rw [h])

/-! ## DB9: identification -/

namespace DB9

theorem db9Update_cur_id (s : State) (hw : Reads) (data0 : Bytes 5) :
    (db9Update s hw data0).cur_id = s.cur_id := by
  unfold db9Update
  simp only []
  split
  · split <;> rfl
  · rfl

theorem db9Update_last_reported (s : State) (hw : Reads) (data0 : Bytes 5) :
    (db9Update s hw data0).last_reported_controller_bytes = s.last_reported_controller_bytes := by
  unfold db9Update
  simp only []
  split
  · split <;> rfl
  · rfl

/-- C1: `db9Init` returns `-1` exactly when the low nibble of `bits[0]` of the
identification read is `0x3` and `0` in every other case; on the `-1` path
the current-state bytes and the last-reported bytes are those of the state
before the call. -/
theorem db9Init_fails_iff_multitap (s : State) (idRead pollRead : Reads)
    (bits0 data0 bits : Bytes 5) (hbits : bits = readController s.cur_id idRead bits0) :
    ((db9Init s idRead pollRead bits0 data0).1 = -1 ↔ (bits 0).val &&& 0xf = 0x3) ∧
    ((bits 0).val &&& 0xf ≠ 0x3 → (db9Init s idRead pollRead bits0 data0).1 = 0) ∧
    ((db9Init s idRead pollRead bits0 data0).1 = -1 →
      (db9Init s idRead pollRead bits0 data0).2.last_read_controller_bytes
          = s.last_read_controller_bytes ∧
      (db9Init s idRead pollRead bits0 data0).2.last_reported_controller_bytes
          = s.last_reported_controller_bytes) := by
  subst hbits
  by_cases h : ((readController s.cur_id idRead bits0) 0).val &&& 0xf = 0x3
  · simp [db9Init, h]
  · simp [db9Init, h]

theorem db9Init_fails_iff_multitap_witness :
    (db9Init initial hwMultitapStart hwMultitapStart zero5 zero5).1 = -1 ∧
    (db9Init initial hwMultitapStart hwMultitapStart zero5 zero5).2.last_read_controller_bytes
      = initial.last_read_controller_bytes ∧
    (db9Init initial hwGenesis6 hwGenesis6 zero5 zero5).1 = 0 := by
  have h1 := db9Init_fails_iff_multitap initial hwMultitapStart hwMultitapStart zero5 zero5 _ rfl
  have h2 := db9Init_fails_iff_multitap initial hwGenesis6 hwGenesis6 zero5 zero5 _ rfl
  have e1 := h1.1.2 (by decide)
  exact ⟨e1, (h1.2.2 e1).1, h2.2.1 (by decide)⟩

/-- The kind stored by a `db9Init` that does not take the multi-tap return,
in terms of the identification read. -/
theorem db9Init_cur_id (s : State) (idRead pollRead : Reads) (bits0 data0 : Bytes 5)
    (h0 : ((readController s.cur_id idRead bits0) 0).val &&& 0xf ≠ 0x3) :
    (db9Init s idRead pollRead bits0 data0).2.cur_id =
      if ((readController s.cur_id idRead bits0) 1).val &&& 0x20 = 0 then CTL_ID_GENESIS6
      else if ((readController s.cur_id idRead bits0) 0).val &&& 0xf = 0xf ∧
          ((readController s.cur_id idRead bits0) 1).val &&& 0xf = 0x3 then
        if ((readController s.cur_id idRead bits0) 3).val &&& 0xf ≠ 0x3 ∨
            ((readController s.cur_id idRead bits0) 4).val &&& 0xf ≠ 0x3 then CTL_ID_GENESIS6
        else CTL_ID_GENESIS3
      else CTL_ID_SMS := by
  simp only [db9Init, h0, if_false, db9Update_cur_id]
  split_ifs <;> simp_all

/-- C2: identification truth table.  When the low nibble of `bits[0]` is not
`0x3` and bit 5 of `bits[1]` reads 1, `db9Init` stores Genesis3 for low
nibbles `(0xf, 0x3, _, 0x3, 0x3)`, Genesis6 for `(0xf, 0x3, _, _, _)` with
`bits[3]` or `bits[4]` not `0x3`, and SMS in every remaining case; the nibble
sequence `(0xf, 0x3, 0x3, 0x0, 0x0)` is stored as Genesis6. -/
theorem db9Init_truth_table (s : State) (idRead pollRead : Reads)
    (bits0 data0 bits : Bytes 5) (hbits : bits = readController s.cur_id idRead bits0)
    (h0 : (bits 0).val &&& 0xf ≠ 0x3) (hstart : (bits 1).val &&& 0x20 ≠ 0) :
    ((bits 0).val &&& 0xf = 0xf ∧ (bits 1).val &&& 0xf = 0x3 ∧
        (bits 3).val &&& 0xf = 0x3 ∧ (bits 4).val &&& 0xf = 0x3 →
      (db9Init s idRead pollRead bits0 data0).2.cur_id = CTL_ID_GENESIS3) ∧
    ((bits 0).val &&& 0xf = 0xf ∧ (bits 1).val &&& 0xf = 0x3 ∧
        ((bits 3).val &&& 0xf ≠ 0x3 ∨ (bits 4).val &&& 0xf ≠ 0x3) →
      (db9Init s idRead pollRead bits0 data0).2.cur_id = CTL_ID_GENESIS6) ∧
    (¬ ((bits 0).val &&& 0xf = 0xf ∧ (bits 1).val &&& 0xf = 0x3) →
      (db9Init s idRead pollRead bits0 data0).2.cur_id = CTL_ID_SMS) ∧
    ((bits 0).val &&& 0xf = 0xf ∧ (bits 1).val &&& 0xf = 0x3 ∧ (bits 2).val &&& 0xf = 0x3 ∧
        (bits 3).val &&& 0xf = 0x0 ∧ (bits 4).val &&& 0xf = 0x0 →
      (db9Init s idRead pollRead bits0 data0).2.cur_id = CTL_ID_GENESIS6) := by
  subst hbits
  rw [db9Init_cur_id s idRead pollRead bits0 data0 h0]
  refine ⟨?_, ?_, ?_, ?_⟩
  · rintro ⟨ha, hb, hd, he⟩
    simp [hstart, ha, hb, hd, he]
  · rintro ⟨ha, hb, hde⟩
    simp [hstart, ha, hb, hde]
  · intro hn
    simp [hstart, hn]
  · rintro ⟨ha, hb, _, hd, _⟩
    simp [hstart, ha, hb, hd]

theorem db9Init_truth_table_witness :
    (readController initial.cur_id hwGenesis6 zero5 0).val &&& 0xf = 0xf ∧
    (readController initial.cur_id hwGenesis6 zero5 1).val &&& 0xf = 0x3 ∧
    (readController initial.cur_id hwGenesis6 zero5 2).val &&& 0xf = 0x3 ∧
    (readController initial.cur_id hwGenesis6 zero5 3).val &&& 0xf = 0x0 ∧
    (readController initial.cur_id hwGenesis6 zero5 4).val &&& 0xf = 0x0 ∧
    (readController initial.cur_id hwGenesis6 zero5 1).val &&& 0x20 ≠ 0 ∧
    (db9Init initial hwGenesis6 hwGenesis6 zero5 zero5).2.cur_id = CTL_ID_GENESIS6 :=
  ⟨by decide, by decide, by decide, by decide, by decide, by decide,
    (db9Init_truth_table initial hwGenesis6 hwGenesis6 zero5 zero5 _ rfl
      (by decide) (by decide)).2.2.2 (by decide)⟩

/-- C3, as the claim states it, fails: with the low nibble of `bits[0]` equal
to `0x3` and Start held in phase 2, `db9Init` returns `-1` and stores SMS, not
Genesis6. -/
theorem db9Init_start_override_counterexample :
    (readController initial.cur_id hwMultitapStart zero5 1).val &&& 0x20 = 0 ∧
    (db9Init initial hwMultitapStart hwMultitapStart zero5 zero5).1 = -1 ∧
    (db9Init initial hwMultitapStart hwMultitapStart zero5 zero5).2.cur_id = CTL_ID_SMS ∧
    (db9Init initial hwMultitapStart hwMultitapStart zero5 zero5).2.cur_id
      ≠ CTL_ID_GENESIS6 := by
  decide

/-- C3, amended: when bit 5 of `bits[1]` reads 0 (Start held) and the low
nibble of `bits[0]` is not `0x3`, `db9Init` succeeds and stores Genesis6,
whatever the low nibbles of phases 1, 2, 4 and 5 are; when the low nibble of
`bits[0]` is `0x3` the multi-tap return comes first: the result is `-1` and
the stored kind is SMS, with Start held or released. -/
theorem db9Init_start_override (s : State) (idRead pollRead : Reads)
    (bits0 data0 bits : Bytes 5) (hbits : bits = readController s.cur_id idRead bits0) :
    ((bits 1).val &&& 0x20 = 0 → (bits 0).val &&& 0xf ≠ 0x3 →
      (db9Init s idRead pollRead bits0 data0).1 = 0 ∧
      (db9Init s idRead pollRead bits0 data0).2.cur_id = CTL_ID_GENESIS6) ∧
    ((bits 0).val &&& 0xf = 0x3 →
      (db9Init s idRead pollRead bits0 data0).1 = -1 ∧
      (db9Init s idRead pollRead bits0 data0).2.cur_id = CTL_ID_SMS) := by
  subst hbits
  constructor
  · intro hstart h0
    refine ⟨by simp [db9Init, h0], ?_⟩
    rw [db9Init_cur_id s idRead pollRead bits0 data0 h0]
    simp [hstart]
  · intro h0
    simp [db9Init, h0]

theorem db9Init_start_override_witness :
    ((readController initial.cur_id hwStartHeld zero5 1).val &&& 0x20 = 0 ∧
      (readController initial.cur_id hwStartHeld zero5 0).val &&& 0xf ≠ 0x3 ∧
      (db9Init initial hwStartHeld hwStartHeld zero5 zero5).1 = 0 ∧
      (db9Init initial hwStartHeld hwStartHeld zero5 zero5).2.cur_id = CTL_ID_GENESIS6) ∧
    ((readController initial.cur_id hwMultitap zero5 1).val &&& 0x20 ≠ 0 ∧
      (readController initial.cur_id hwMultitap zero5 0).val &&& 0xf = 0x3 ∧
      (db9Init initial hwMultitap hwMultitap zero5 zero5).1 = -1 ∧
      (db9Init initial hwMultitap hwMultitap zero5 zero5).2.cur_id = CTL_ID_SMS) :=
  ⟨⟨by decide, by decide,
    (db9Init_start_override initial hwStartHeld hwStartHeld zero5 zero5 _ rfl).1
      (by decide) (by decide)⟩,
   ⟨by decide, by decide,
    (db9Init_start_override initial hwMultitap hwMultitap zero5 zero5 _ rfl).2 (by decide)⟩⟩

end DB9

/-! ## Change detection -/

namespace DB9

theorem db9Update_first (s : State) (hw : Reads) (data0 : Bytes 5) :
    (db9Update s hw data0).first = s.first := by
  unfold db9Update
  simp only []
  split
  · split <;> rfl
  · rfl

theorem db9_step_first (s : State) (o : Op) :
    (step s o).first = if o.isChanged then 0 else s.first := by
  cases o with
  | init idRead pollRead bits0 data0 =>
    simp only [step, Op.isChanged, db9Init]
    split
    · simp
    · simp [db9Update_first]
      split_ifs <;> rfl
  | update hw data0 => simp [step, Op.isChanged, db9Update_first]
  | changed id =>
    simp only [step, Op.isChanged, db9Changed]
    split
    · simp
    · simp_all
  | buildReport reportBuffer id => simp [step, Op.isChanged, db9BuildReport]

theorem db9_run_first (s : State) (ops : List Op) :
    (run s ops).first = if ops.all (fun o => !o.isChanged) then s.first else 0 := by
  induction ops generalizing s with
  | nil => simp [run]
  | cons o ops ih =>
    have h := ih (step s o)
    simp only [run, List.foldl_cons] at h ⊢
    rw [h, db9_step_first]
    cases hc : o.isChanged <;> simp [hc]

theorem db9Changed_ne_zero_iff (s : State) (id : Int) :
    (db9Changed s id).1 ≠ 0 ↔
      (s.first ≠ 0 ∨ s.last_read_controller_bytes ≠ s.last_reported_controller_bytes) := by
  unfold db9Changed
  split
  · simp_all
  · simp_all [toChar_memcmp_eq_zero_iff]

end DB9

namespace TG16

theorem tg16_Update_first (s : State) (pincA pincB : Byte) :
    (tg16_Update s pincA pincB).first = s.first := rfl

theorem tg16_step_first (s : State) (o : Op) :
    (step s o).first = if o.isChanged then 0 else s.first := by
  cases o with
  | init pincA pincB => simp [step, Op.isChanged, tg16_Init, tg16_Update_first]
  | update pincA pincB => simp [step, Op.isChanged, tg16_Update_first]
  | changed id =>
    simp only [step, Op.isChanged, tg16_Changed]
    split
    · simp
    · simp_all
  | buildReport reportBuffer id => simp [step, Op.isChanged, tg16_BuildReport]

theorem tg16_run_first (s : State) (ops : List Op) :
    (run s ops).first = if ops.all (fun o => !o.isChanged) then s.first else 0 := by
  induction ops generalizing s with
  | nil => simp [run]
  | cons o ops ih =>
    have h := ih (step s o)
    simp only [run, List.foldl_cons] at h ⊢
    rw [h, tg16_step_first]
    cases hc : o.isChanged <;> simp [hc]

theorem tg16_Changed_ne_zero_iff (s : State) (id : Int) :
    (tg16_Changed s id).1 ≠ 0 ↔
      (s.first ≠ 0 ∨ s.last_read_controller_bytes ≠ s.last_reported_controller_bytes) := by
  unfold tg16_Changed
  split
  · simp_all
  · simp_all [toChar_memcmp_eq_zero_iff]

end TG16

/-- C4: `db9Changed` and `tg16_Changed` equal the reference definition.  After
any sequence of calls from program start, the result is nonzero exactly when
the reference says true, where the invocation is the first one iff no call of
the same function occurs earlier in the sequence; and from every state the
call leaves both byte arrays as they are. -/
theorem changed_eq_reference :
    (∀ (ops : List DB9.Op) (id : Int),
      decide ((DB9.db9Changed (DB9.run DB9.initial ops) id).1 ≠ 0) =
        has_changed_ref (ops.all fun o => !o.isChanged)
          (DB9.run DB9.initial ops).last_read_controller_bytes
          (DB9.run DB9.initial ops).last_reported_controller_bytes) ∧
    (∀ (s : DB9.State) (id : Int),
      (DB9.db9Changed s id).2.last_read_controller_bytes = s.last_read_controller_bytes ∧
      (DB9.db9Changed s id).2.last_reported_controller_bytes
        = s.last_reported_controller_bytes) ∧
    (∀ (ops : List TG16.Op) (id : Int),
      decide ((TG16.tg16_Changed (TG16.run TG16.initial ops) id).1 ≠ 0) =
        has_changed_ref (ops.all fun o => !o.isChanged)
          (TG16.run TG16.initial ops).last_read_controller_bytes
          (TG16.run TG16.initial ops).last_reported_controller_bytes) ∧
    (∀ (s : TG16.State) (id : Int),
      (TG16.tg16_Changed s id).2.last_read_controller_bytes = s.last_read_controller_bytes ∧
      (TG16.tg16_Changed s id).2.last_reported_controller_bytes
        = s.last_reported_controller_bytes) := by
  refine ⟨?_, ?_, ?_, ?_⟩
  · intro ops id
    have hf := DB9.db9_run_first DB9.initial ops
    have hc := DB9.db9Changed_ne_zero_iff (DB9.run DB9.initial ops) id
    rw [Bool.eq_iff_iff]
    simp only [decide_eq_true_eq, has_changed_ref, Bool.or_eq_true, ← bytes_ne_iff]
    rw [hc, hf]
    cases hall : ops.all fun o => !o.isChanged <;> simp [DB9.initial]
  · intro s id
    unfold DB9.db9Changed
    split <;> exact ⟨rfl, rfl⟩
  · intro ops id
    have hf := TG16.tg16_run_first TG16.initial ops
    have hc := TG16.tg16_Changed_ne_zero_iff (TG16.run TG16.initial ops) id
    rw [Bool.eq_iff_iff]
    simp only [decide_eq_true_eq, has_changed_ref, Bool.or_eq_true, ← bytes_ne_iff]
    rw [hc, hf]
    cases hall : ops.all fun o => !o.isChanged <;> simp [TG16.initial]
  · intro s id
    unfold TG16.tg16_Changed
    split <;> exact ⟨rfl, rfl⟩

namespace NES

theorem nesBuildReport_report_eq (s s' : State) (buf buf' : Bytes 3) (id id' : Int)
    (h : s.last_read_controller_bytes 0 = s'.last_read_controller_bytes 0) :
    (nesBuildReport s (some buf) id).2.1 = (nesBuildReport s' (some buf') id').2.1 := by
  simp only [nesBuildReport, h, Option.some.injEq]
  funext i
  fin_cases i <;> simp [Function.update]

theorem nesChanged_ne_zero_iff (s : State) (id : Int) :
    (nesChanged s id).1 ≠ 0 ↔
      s.last_read_controller_bytes ≠ s.last_reported_controller_bytes := by
  simp [nesChanged, toChar_memcmp_eq_zero_iff]

theorem bytes1_eq_iff (a b : Bytes 1) : a = b ↔ a 0 = b 0 := by
  constructor
  · intro h
    rw [h]
  · intro h
    funext i
    fin_cases i
    exact h

/-- C5: in the code the first `nesChanged` after `nesInit` is not
unconditionally true: after `nesInit` and any number of polls in which the
data line reads high throughout (raw byte 0), it returns 0. -/
theorem nesChanged_first_call_idle (n : Nat) :
    (nesChanged ((fun s => nesUpdate s hwIdle)^[n] (nesInit initial).2) 0).1 = 0 := by
  have key : ((fun s => nesUpdate s hwIdle)^[n] (nesInit initial).2) = initial := by
    induction n with
    | zero => rfl
    | succ k ih =>
      rw [Function.iterate_succ_apply', ih]
      simp only [nesUpdate, initial, State.mk.injEq, and_true]
      decide
  rw [key]
  decide

/-- C6, as the claim states it, fails: a report is built with Left held (raw
byte 2), the next poll reads Left and Right held (raw byte 3); `nesChanged`
returns nonzero although the report built from the new raw byte equals the one
built before. -/
theorem nesChanged_report_counterexample :
    (nesChanged (nesUpdate (nesBuildReport (nesUpdate initial hwLeft) (some zero3) 0).2.2
        hwLeftRight) 0).1 ≠ 0 ∧
    (nesBuildReport (nesUpdate (nesBuildReport (nesUpdate initial hwLeft) (some zero3) 0).2.2
        hwLeftRight) (some zero3) 0).2.1
      = (nesBuildReport (nesUpdate initial hwLeft) (some zero3) 0).2.1 := by
  decide

/-- C6, amended: `nesChanged` compares the raw bytes.  It returns nonzero iff
the raw byte of the latest poll differs from the raw byte at the last
`nesBuildReport`; hence it returns nonzero whenever the reports serialized
from the two raw bytes differ (the converse does not hold). -/
theorem nesChanged_iff_raw_differs (s : State) (id : Int) :
    ((nesChanged s id).1 ≠ 0 ↔
      s.last_read_controller_bytes 0 ≠ s.last_reported_controller_bytes 0) ∧
    (∀ (sOld : State) (buf bufOld : Bytes 3) (id1 id2 : Int),
      sOld.last_read_controller_bytes 0 = s.last_reported_controller_bytes 0 →
      (nesBuildReport s (some buf) id1).2.1 ≠ (nesBuildReport sOld (some bufOld) id2).2.1 →
      (nesChanged s id).1 ≠ 0) := by
  have h1 : (nesChanged s id).1 ≠ 0 ↔
      s.last_read_controller_bytes 0 ≠ s.last_reported_controller_bytes 0 := by
    rw [nesChanged_ne_zero_iff, Ne, bytes1_eq_iff]
  refine ⟨h1, ?_⟩
  intro sOld buf bufOld id1 id2 hOld hrep
  rw [h1]
  intro heq
  exact hrep (nesBuildReport_report_eq s sOld buf bufOld id1 id2 (by rw [heq, hOld]))

theorem nesChanged_iff_raw_differs_witness :
    (nesChanged (nesUpdate (nesBuildReport (nesUpdate initial hwLeft) none 0).2.2 hwIdle) 0).1
      ≠ 0 :=
  (nesChanged_iff_raw_differs
      (nesUpdate (nesBuildReport (nesUpdate initial hwLeft) none 0).2.2 hwIdle) 0).2
    (nesUpdate initial hwLeft) zero3 zero3 0 0 (by decide) (by decide)

end NES

/-! ## Report building -/

/-- C7, as the claim states it, fails: from the state at program start,
`db9BuildReport` immediately followed by `db9Changed` returns 1, and so does
`tg16_BuildReport` followed by `tg16_Changed`. -/
theorem build_then_changed_counterexample :
    (DB9.db9Changed (DB9.db9BuildReport DB9.initial none 0).2.2 0).1 ≠ 0 ∧
    (TG16.tg16_Changed (TG16.tg16_BuildReport TG16.initial none 0).2.2 0).1 ≠ 0 := by
  decide

/-- C7, amended: build_report immediately followed by has_changed returns 0
for NES from every state, and for DB9 and TG16 from every state in which the
first-call flag is already cleared, in particular after any sequence of calls
from program start that contains a has_changed call; while the flag is still
set the has_changed call returns 1. -/
theorem build_then_changed :
    (∀ (s : NES.State) (rb : Option (Bytes 3)) (id id' : Int),
      (NES.nesChanged (NES.nesBuildReport s rb id).2.2 id').1 = 0) ∧
    (∀ (s : DB9.State) (rb : Option (Bytes 4)) (id id' : Int),
      (s.first = 0 → (DB9.db9Changed (DB9.db9BuildReport s rb id).2.2 id').1 = 0) ∧
      (s.first ≠ 0 → (DB9.db9Changed (DB9.db9BuildReport s rb id).2.2 id').1 = 1)) ∧
    (∀ (ops : List DB9.Op) (rb : Option (Bytes 4)) (id id' : Int),
      (ops.any fun o => o.isChanged) = true →
      (DB9.db9Changed (DB9.db9BuildReport (DB9.run DB9.initial ops) rb id).2.2 id').1 = 0) ∧
    (∀ (s : TG16.State) (rb : Option (Bytes 3)) (id id' : Int),
      (s.first = 0 → (TG16.tg16_Changed (TG16.tg16_BuildReport s rb id).2.2 id').1 = 0) ∧
      (s.first ≠ 0 → (TG16.tg16_Changed (TG16.tg16_BuildReport s rb id).2.2 id').1 = 1)) ∧
    (∀ (ops : List TG16.Op) (rb : Option (Bytes 3)) (id id' : Int),
      (ops.any fun o => o.isChanged) = true →
      (TG16.tg16_Changed (TG16.tg16_BuildReport (TG16.run TG16.initial ops) rb id).2.2 id').1
        = 0) := by
  have hdb9 : ∀ (s : DB9.State) (rb : Option (Bytes 4)) (id id' : Int),
      (s.first = 0 → (DB9.db9Changed (DB9.db9BuildReport s rb id).2.2 id').1 = 0) ∧
      (s.first ≠ 0 → (DB9.db9Changed (DB9.db9BuildReport s rb id).2.2 id').1 = 1) := by
    intro s rb id id'
    constructor
    · intro h
      simp only [DB9.db9Changed, DB9.db9BuildReport, h, memcpy, ne_eq, not_true_eq_false,
        if_false]
      exact (toChar_memcmp_eq_zero_iff _ _).2 rfl
    · intro h
      simp [DB9.db9Changed, DB9.db9BuildReport, h]
  have htg : ∀ (s : TG16.State) (rb : Option (Bytes 3)) (id id' : Int),
      (s.first = 0 → (TG16.tg16_Changed (TG16.tg16_BuildReport s rb id).2.2 id').1 = 0) ∧
      (s.first ≠ 0 → (TG16.tg16_Changed (TG16.tg16_BuildReport s rb id).2.2 id').1 = 1) := by
    intro s rb id id'
    constructor
    · intro h
      simp only [TG16.tg16_Changed, TG16.tg16_BuildReport, h, memcpy, ne_eq, not_true_eq_false,
        if_false]
      exact (toChar_memcmp_eq_zero_iff _ _).2 rfl
    · intro h
      simp [TG16.tg16_Changed, TG16.tg16_BuildReport, h]
  refine ⟨?_, hdb9, ?_, htg, ?_⟩
  · intro s rb id id'
    simp only [NES.nesChanged, NES.nesBuildReport, memcpy]
    exact (toChar_memcmp_eq_zero_iff _ _).2 rfl
  · intro ops rb id id' hany
    refine (hdb9 _ rb id id').1 ?_
    rw [DB9.db9_run_first]
    have hall : (ops.all fun o => !o.isChanged) = false := by
      rw [← Bool.not_eq_true, List.all_eq_true]
      simp only [List.any_eq_true] at hany
      obtain ⟨o, ho, hc⟩ := hany
      intro hcon
      have := hcon o ho
      simp [hc] at this
    simp [hall]
  · intro ops rb id id' hany
    refine (htg _ rb id id').1 ?_
    rw [TG16.tg16_run_first]
    have hall : (ops.all fun o => !o.isChanged) = false := by
      rw [← Bool.not_eq_true, List.all_eq_true]
      simp only [List.any_eq_true] at hany
      obtain ⟨o, ho, hc⟩ := hany
      intro hcon
      have := hcon o ho
      simp [hc] at this
    simp [hall]

theorem build_then_changed_witness :
    (DB9.db9Changed (DB9.db9BuildReport (DB9.db9Changed DB9.initial 0).2 none 0).2.2 0).1 = 0 ∧
    (DB9.db9Changed (DB9.db9BuildReport (DB9.run DB9.initial [DB9.Op.changed 0]) none 0).2.2
      0).1 = 0 ∧
    (TG16.tg16_Changed (TG16.tg16_BuildReport (TG16.tg16_Changed TG16.initial 0).2 none 0).2.2
      0).1 = 0 ∧
    (TG16.tg16_Changed (TG16.tg16_BuildReport (TG16.run TG16.initial [TG16.Op.changed 0])
      none 0).2.2 0).1 = 0 :=
  ⟨(build_then_changed.2.1 (DB9.db9Changed DB9.initial 0).2 none 0 0).1 (by decide),
    build_then_changed.2.2.1 [DB9.Op.changed 0] none 0 0 (by decide),
    (build_then_changed.2.2.2.1 (TG16.tg16_Changed TG16.initial 0).2 none 0 0).1 (by decide),
    build_then_changed.2.2.2.2 [TG16.Op.changed 0] none 0 0 (by decide)⟩

theorem toChar_report_size4 : toChar ((4 : Nat) : Int) = 4 := by decide

theorem toChar_report_size3 : toChar ((3 : Nat) : Int) = 3 := by decide

/-- C8: two consecutive build_report calls with non-null buffers and no poll
in between write the same report bytes into their buffers, and the state
after the second call is the state after the first, for DB9, NES and TG16. -/
theorem buildReport_idempotent :
    (∀ (s : DB9.State) (buf1 buf2 : Bytes 4) (id1 id2 : Int),
      (∃ rep, (DB9.db9BuildReport s (some buf1) id1).2.1 = some rep ∧
        (DB9.db9BuildReport (DB9.db9BuildReport s (some buf1) id1).2.2 (some buf2) id2).2.1
          = some rep) ∧
      (DB9.db9BuildReport (DB9.db9BuildReport s (some buf1) id1).2.2 (some buf2) id2).2.2
        = (DB9.db9BuildReport s (some buf1) id1).2.2) ∧
    (∀ (s : NES.State) (buf1 buf2 : Bytes 3) (id1 id2 : Int),
      (∃ rep, (NES.nesBuildReport s (some buf1) id1).2.1 = some rep ∧
        (NES.nesBuildReport (NES.nesBuildReport s (some buf1) id1).2.2 (some buf2) id2).2.1
          = some rep) ∧
      (NES.nesBuildReport (NES.nesBuildReport s (some buf1) id1).2.2 (some buf2) id2).2.2
        = (NES.nesBuildReport s (some buf1) id1).2.2) ∧
    (∀ (s : TG16.State) (buf1 buf2 : Bytes 3) (id1 id2 : Int),
      (∃ rep, (TG16.tg16_BuildReport s (some buf1) id1).2.1 = some rep ∧
        (TG16.tg16_BuildReport (TG16.tg16_BuildReport s (some buf1) id1).2.2 (some buf2)
          id2).2.1 = some rep) ∧
      (TG16.tg16_BuildReport (TG16.tg16_BuildReport s (some buf1) id1).2.2 (some buf2) id2).2.2
        = (TG16.tg16_BuildReport s (some buf1) id1).2.2) := by
  refine ⟨?_, ?_, ?_⟩
  · intro s buf1 buf2 id1 id2
    exact ⟨⟨_, rfl, rfl⟩, rfl⟩
  · intro s buf1 buf2 id1 id2
    refine ⟨⟨_, rfl, ?_⟩, rfl⟩
    exact NES.nesBuildReport_report_eq _ s buf2 buf1 id2 id1 rfl
  · intro s buf1 buf2 id1 id2
    exact ⟨⟨_, rfl, rfl⟩, rfl⟩

/-- C9: build_report returns the report length of the family (4 for DB9, 3
for NES and TG16) with and without a buffer, sets the last-reported bytes to
the current-state bytes in both cases and leaves the current-state bytes as
they are; with a null buffer nothing is written, and for DB9 and TG16 the
bytes written to a supplied buffer are the new last-reported bytes. -/
theorem buildReport_post :
    (∀ (s : DB9.State) (rb : Option (Bytes 4)) (id : Int),
      (DB9.db9BuildReport s rb id).1 = 4 ∧
      (DB9.db9BuildReport s rb id).2.2.last_reported_controller_bytes
        = s.last_read_controller_bytes ∧
      (DB9.db9BuildReport s rb id).2.2.last_read_controller_bytes
        = s.last_read_controller_bytes) ∧
    (∀ (s : DB9.State) (buf : Bytes 4) (id : Int),
      (DB9.db9BuildReport s (some buf) id).2.1
        = some (DB9.db9BuildReport s (some buf) id).2.2.last_reported_controller_bytes ∧
      (DB9.db9BuildReport s none id).2.1 = none) ∧
    (∀ (s : NES.State) (rb : Option (Bytes 3)) (id : Int),
      (NES.nesBuildReport s rb id).1 = 3 ∧
      (NES.nesBuildReport s rb id).2.2.last_reported_controller_bytes
        = s.last_read_controller_bytes ∧
      (NES.nesBuildReport s rb id).2.2.last_read_controller_bytes
        = s.last_read_controller_bytes ∧
      (NES.nesBuildReport s none id).2.1 = none) ∧
    (∀ (s : TG16.State) (rb : Option (Bytes 3)) (id : Int),
      (TG16.tg16_BuildReport s rb id).1 = 3 ∧
      (TG16.tg16_BuildReport s rb id).2.2.last_reported_controller_bytes
        = s.last_read_controller_bytes ∧
      (TG16.tg16_BuildReport s rb id).2.2.last_read_controller_bytes
        = s.last_read_controller_bytes) ∧
    (∀ (s : TG16.State) (buf : Bytes 3) (id : Int),
      (TG16.tg16_BuildReport s (some buf) id).2.1
        = some (TG16.tg16_BuildReport s (some buf) id).2.2.last_reported_controller_bytes ∧
      (TG16.tg16_BuildReport s none id).2.1 = none) := by
  refine ⟨?_, ?_, ?_, ?_, ?_⟩
  · intro s rb id
    exact ⟨toChar_report_size4, rfl, rfl⟩
  · intro s buf id
    exact ⟨rfl, rfl⟩
  · intro s rb id
    exact ⟨toChar_report_size3, rfl, rfl, rfl⟩
  · intro s rb id
    exact ⟨toChar_report_size3, rfl, rfl⟩
  · intro s buf id
    exact ⟨rfl, rfl⟩

namespace NES

set_option maxRecDepth 100000 in
/-- C10: the button byte written by `nesBuildReport` has bit 0 set iff bit 7
of the raw byte is set, bit 1 iff bit 6, bit 2 iff bit 5, bit 3 iff bit 4,
and bits 4 to 7 clear; the raw byte `0b10000000` gives the report
`(128, 128, 0x01)`. -/
theorem nesBuildReport_buttons (s : State) (buf : Bytes 3) (id : Int) :
    ∃ out, (nesBuildReport s (some buf) id).2.1 = some out ∧
      (out 2).val.testBit 0 = (s.last_read_controller_bytes 0).val.testBit 7 ∧
      (out 2).val.testBit 1 = (s.last_read_controller_bytes 0).val.testBit 6 ∧
      (out 2).val.testBit 2 = (s.last_read_controller_bytes 0).val.testBit 5 ∧
      (out 2).val.testBit 3 = (s.last_read_controller_bytes 0).val.testBit 4 ∧
      (out 2).val &&& 0xf0 = 0 ∧
      (s.last_read_controller_bytes 0 = 0x80 → out 0 = 128 ∧ out 1 = 128 ∧ out 2 = 0x01) := by
  refine ⟨_, rfl, ?_⟩
  simp only [Function.update_same, Function.update_noteq, ne_eq, Fin.reduceEq,
    not_false_eq_true]
  generalize s.last_read_controller_bytes 0 = r
  revert r
  decide

theorem nesBuildReport_buttons_witness :
    ∃ out, (nesBuildReport (nesUpdate initial hwFirstButton) (some zero3) 0).2.1 = some out ∧
      out 0 = 128 ∧ out 1 = 128 ∧ out 2 = 0x01 := by
  obtain ⟨out, h, _, _, _, _, _, hx⟩ :=
    nesBuildReport_buttons (nesUpdate initial hwFirstButton) zero3 0
  exact ⟨out, h, hx (by decide)⟩

end NES

/-! ## State translation -/

set_option maxRecDepth 100000 in
theorem inverted_bit (p : Byte) :
    (decide ((toByte (p.val ^^^ 0xff)).val &&& 0x01 ≠ 0) = !p.val.testBit 0) ∧
    (decide ((toByte (p.val ^^^ 0xff)).val &&& 0x02 ≠ 0) = !p.val.testBit 1) ∧
    (decide ((toByte (p.val ^^^ 0xff)).val &&& 0x04 ≠ 0) = !p.val.testBit 2) ∧
    (decide ((toByte (p.val ^^^ 0xff)).val &&& 0x08 ≠ 0) = !p.val.testBit 3) ∧
    (decide ((toByte (p.val ^^^ 0xff)).val &&& 0x10 ≠ 0) = !p.val.testBit 4) ∧
    (decide ((toByte (p.val ^^^ 0xff)).val &&& 0x20 ≠ 0) = !p.val.testBit 5) ∧
    (decide ((toByte (p.val ^^^ 0xff)).val &&& 0x40 ≠ 0) = !p.val.testBit 6) ∧
    (decide ((toByte (p.val ^^^ 0xff)).val &&& 0x80 ≠ 0) = !p.val.testBit 7) := by
  revert p
  decide

namespace DB9

theorem readController_zero (cur_id : Byte) (hw : Reads) (bits : Bytes 5) :
    readController cur_id hw bits 0 = SAMPLE hw.pa := by
  unfold readController
  split <;> simp [Function.update]

theorem readController_low (cur_id : Byte) (hw : Reads) (bits bits' : Bytes 5) :
    readController cur_id hw bits 0 = readController cur_id hw bits' 0 ∧
    readController cur_id hw bits 1 = readController cur_id hw bits' 1 ∧
    readController cur_id hw bits 2 = readController cur_id hw bits' 2 := by
  unfold readController
  split <;> simp [Function.update]

theorem upd_at0 (d : Bytes 5) (v0 v1 v2 : Byte) :
    Function.update (Function.update (Function.update d 0 v0) 1 v1) 2 v2 0 = v0 := by
  simp [Function.update]

theorem upd_at1 (d : Bytes 5) (v0 v1 v2 : Byte) :
    Function.update (Function.update (Function.update d 0 v0) 1 v1) 2 v2 1 = v1 := by
  simp [Function.update]

theorem upd_at2 (d : Bytes 5) (v0 v1 v2 : Byte) :
    Function.update (Function.update (Function.update d 0 v0) 1 v1) 2 v2 2 = v2 := by
  simp [Function.update]

theorem upd1_at1 (d : Bytes 5) (v0 : Byte) : Function.update d 0 v0 1 = d 1 := by
  simp [Function.update]

theorem upd2_at2 (d : Bytes 5) (v0 v1 : Byte) :
    Function.update (Function.update d 0 v0) 1 v1 2 = d 2 := by
  simp [Function.update]

/-- The axis bytes stored by `db9Update`, in terms of the phase-1 sample. -/
theorem db9Update_axes (s : State) (hw : Reads) (data0 : Bytes 5) :
    (db9Update s hw data0).last_read_controller_bytes 0 =
      toByte (if (toByte ((SAMPLE hw.pa).val ^^^ 0xff)).val &&& 8 ≠ 0 then 255
        else if (toByte ((SAMPLE hw.pa).val ^^^ 0xff)).val &&& 4 ≠ 0 then 0 else 128) ∧
    (db9Update s hw data0).last_read_controller_bytes 1 =
      toByte (if (toByte ((SAMPLE hw.pa).val ^^^ 0xff)).val &&& 2 ≠ 0 then 255
        else if (toByte ((SAMPLE hw.pa).val ^^^ 0xff)).val &&& 1 ≠ 0 then 0 else 128) := by
  unfold db9Update
  simp only [upd_at0, upd_at1, upd_at2, upd1_at1, upd2_at2, readController_zero]
  split_ifs <;> exact ⟨rfl, rfl⟩

/-- The button bytes stored by `db9Update` when the stored kind is Genesis6. -/
theorem db9Update_buttons_genesis6 (s : State) (hw : Reads) (data0 bits : Bytes 5)
    (hbits : bits = readController s.cur_id hw data0) (h6 : s.cur_id = CTL_ID_GENESIS6) :
    (db9Update s hw data0).last_read_controller_bytes 2 =
      orIf (!(bits 2).val.testBit 3) (orIf (!(bits 1).val.testBit 4)
        (orIf (!(bits 2).val.testBit 0) (orIf (!(bits 0).val.testBit 5)
          (orIf (!(bits 0).val.testBit 4) (orIf (!(bits 2).val.testBit 1) 0 0x01) 0x02) 0x04)
            0x08) 0x10) 0x20 ∧
    (db9Update s hw data0).last_read_controller_bytes 3 =
      orIf (!(bits 1).val.testBit 5) (orIf (!(bits 2).val.testBit 2) 0 0x01) 0x02 := by
  subst hbits
  have hg : isGenesis s.cur_id = true := by rw [h6]; decide
  unfold db9Update
  simp only [upd_at0, upd_at1, upd_at2, upd1_at1, upd2_at2, hg, if_true, h6, ne_eq,
    not_true_eq_false, if_false]
  simp only [(inverted_bit _).1, (inverted_bit _).2.1, (inverted_bit _).2.2.1,
    (inverted_bit _).2.2.2.1, (inverted_bit _).2.2.2.2.1, (inverted_bit _).2.2.2.2.2.1]
  exact ⟨rfl, rfl⟩

/-- The button bytes stored by `db9Update` when the stored kind is Atari or SMS. -/
theorem db9Update_buttons_joystick (s : State) (hw : Reads) (data0 : Bytes 5)
    (h : s.cur_id = CTL_ID_ATARI ∨ s.cur_id = CTL_ID_SMS) :
    (db9Update s hw data0).last_read_controller_bytes 2 =
      orIf (!(SAMPLE hw.pa).val.testBit 5) (orIf (!(SAMPLE hw.pa).val.testBit 4) 0 0x01) 0x02 ∧
    (db9Update s hw data0).last_read_controller_bytes 3 = 0 := by
  have hg : isGenesis s.cur_id = false := by
    rcases h with h | h <;> rw [h] <;> decide
  unfold db9Update
  simp only [upd_at0, upd_at1, upd_at2, upd1_at1, upd2_at2, hg, readController_zero]
  simp only [(inverted_bit _).2.2.2.2.1, (inverted_bit _).2.2.2.2.2.1]
  exact ⟨rfl, rfl⟩

end DB9

/-! ## NES: the shift-register read -/

namespace NES

theorem ofFn_eight (hw : Fin 8 → Byte) :
    List.ofFn hw = [hw 0, hw 1, hw 2, hw 3, hw 4, hw 5, hw 6, hw 7] := rfl

theorem shiftIn_level (tmp p : Byte) :
    shiftIn tmp p = shiftIn tmp (if decide (NES_GET_DATA p = 0) = true then 0x00 else 0x08) := by
  unfold shiftIn
  by_cases h : NES_GET_DATA p = 0
  · simp only [h, decide_True, if_true]
    rfl
  · simp only [h, decide_False, if_false]
    have : NES_GET_DATA (if false = true then (0x00 : Byte) else 0x08) ≠ 0 := by decide
    simp only [this, if_false]

theorem shift_register_value : ∀ b0 b1 b2 b3 b4 b5 b6 b7 : Bool,
    shiftIn (shiftIn (shiftIn (shiftIn (shiftIn (shiftIn (shiftIn (shiftIn 0
      (if b0 = true then 0x00 else 0x08)) (if b1 = true then 0x00 else 0x08))
      (if b2 = true then 0x00 else 0x08)) (if b3 = true then 0x00 else 0x08))
      (if b4 = true then 0x00 else 0x08)) (if b5 = true then 0x00 else 0x08))
      (if b6 = true then 0x00 else 0x08)) (if b7 = true then 0x00 else 0x08)
    = toByte (128 * b0.toNat + 64 * b1.toNat + 32 * b2.toNat + 16 * b3.toNat + 8 * b4.toNat
        + 4 * b5.toNat + 2 * b6.toNat + b7.toNat) := by
  decide

theorem shift_register_bits : ∀ b0 b1 b2 b3 b4 b5 b6 b7 : Bool,
    (toByte (128 * b0.toNat + 64 * b1.toNat + 32 * b2.toNat + 16 * b3.toNat + 8 * b4.toNat
        + 4 * b5.toNat + 2 * b6.toNat + b7.toNat)).val.testBit 7 = b0 ∧
    (toByte (128 * b0.toNat + 64 * b1.toNat + 32 * b2.toNat + 16 * b3.toNat + 8 * b4.toNat
        + 4 * b5.toNat + 2 * b6.toNat + b7.toNat)).val.testBit 6 = b1 ∧
    (toByte (128 * b0.toNat + 64 * b1.toNat + 32 * b2.toNat + 16 * b3.toNat + 8 * b4.toNat
        + 4 * b5.toNat + 2 * b6.toNat + b7.toNat)).val.testBit 5 = b2 ∧
    (toByte (128 * b0.toNat + 64 * b1.toNat + 32 * b2.toNat + 16 * b3.toNat + 8 * b4.toNat
        + 4 * b5.toNat + 2 * b6.toNat + b7.toNat)).val.testBit 4 = b3 ∧
    (toByte (128 * b0.toNat + 64 * b1.toNat + 32 * b2.toNat + 16 * b3.toNat + 8 * b4.toNat
        + 4 * b5.toNat + 2 * b6.toNat + b7.toNat)).val.testBit 3 = b4 ∧
    (toByte (128 * b0.toNat + 64 * b1.toNat + 32 * b2.toNat + 16 * b3.toNat + 8 * b4.toNat
        + 4 * b5.toNat + 2 * b6.toNat + b7.toNat)).val.testBit 2 = b5 ∧
    (toByte (128 * b0.toNat + 64 * b1.toNat + 32 * b2.toNat + 16 * b3.toNat + 8 * b4.toNat
        + 4 * b5.toNat + 2 * b6.toNat + b7.toNat)).val.testBit 1 = b6 ∧
    (toByte (128 * b0.toNat + 64 * b1.toNat + 32 * b2.toNat + 16 * b3.toNat + 8 * b4.toNat
        + 4 * b5.toNat + 2 * b6.toNat + b7.toNat)).val.testBit 0 = b7 := by
  decide

/-- The raw byte stored by `nesUpdate`, in terms of the eight sampled levels. -/
theorem nesUpdate_raw (s : State) (hw : Fin 8 → Byte) :
    (nesUpdate s hw).last_read_controller_bytes 0 =
      toByte (128 * (decide (NES_GET_DATA (hw 0) = 0)).toNat
        + 64 * (decide (NES_GET_DATA (hw 1) = 0)).toNat
        + 32 * (decide (NES_GET_DATA (hw 2) = 0)).toNat
        + 16 * (decide (NES_GET_DATA (hw 3) = 0)).toNat
        + 8 * (decide (NES_GET_DATA (hw 4) = 0)).toNat
        + 4 * (decide (NES_GET_DATA (hw 5) = 0)).toNat
        + 2 * (decide (NES_GET_DATA (hw 6) = 0)).toNat
        + (decide (NES_GET_DATA (hw 7) = 0)).toNat) := by
  simp only [nesUpdate, Function.update_same, ofFn_eight, List.foldl_cons, List.foldl_nil]
  rw [shiftIn_level _ (hw 7), shiftIn_level _ (hw 6), shiftIn_level _ (hw 5),
    shiftIn_level _ (hw 4), shiftIn_level _ (hw 3), shiftIn_level _ (hw 2),
    shiftIn_level _ (hw 1), shiftIn_level _ (hw 0)]
  exact shift_register_value _ _ _ _ _ _ _ _

/-- C11: the raw byte stored by `nesUpdate` has bit `7 - i` set iff the data
line read low in clock cycle `i`, so the first sampled bit is the most
significant; when every sample reads high the raw byte is 0 and
`nesBuildReport` writes the report `(128, 128, 0)`. -/
theorem nesUpdate_msb_first (s : State) (hw : Fin 8 → Byte) :
    (∀ i : Fin 8, ((nesUpdate s hw).last_read_controller_bytes 0).val.testBit (7 - i.val)
      = decide (NES_GET_DATA (hw i) = 0)) ∧
    ((∀ i : Fin 8, NES_GET_DATA (hw i) ≠ 0) →
      (nesUpdate s hw).last_read_controller_bytes 0 = 0 ∧
      ∀ (buf : Bytes 3) (id : Int),
        (nesBuildReport (nesUpdate s hw) (some buf) id).2.1 = some ![128, 128, 0]) := by
  have hb := shift_register_bits (decide (NES_GET_DATA (hw 0) = 0))
    (decide (NES_GET_DATA (hw 1) = 0)) (decide (NES_GET_DATA (hw 2) = 0))
    (decide (NES_GET_DATA (hw 3) = 0)) (decide (NES_GET_DATA (hw 4) = 0))
    (decide (NES_GET_DATA (hw 5) = 0)) (decide (NES_GET_DATA (hw 6) = 0))
    (decide (NES_GET_DATA (hw 7) = 0))
  rw [← nesUpdate_raw s hw] at hb
  obtain ⟨h0, h1, h2, h3, h4, h5, h6, h7⟩ := hb
  constructor
  · intro i
    fin_cases i
    · exact h0
    · exact h1
    · exact h2
    · exact h3
    · exact h4
    · exact h5
    · exact h6
    · exact h7
  · intro hall
    have hz : (nesUpdate s hw).last_read_controller_bytes 0 = 0 := by
      rw [nesUpdate_raw]
      simp only [hall, decide_False]
      decide
    refine ⟨hz, ?_⟩
    intro buf id
    have hidle : (nesUpdate s hw).last_read_controller_bytes 0
        = (nesUpdate initial hwIdle).last_read_controller_bytes 0 := by
      rw [hz]
      decide
    rw [nesBuildReport_report_eq (nesUpdate s hw) (nesUpdate initial hwIdle) buf zero3 id 0 hidle]
    simp only [nesBuildReport, Option.some.injEq]
    decide

theorem nesUpdate_msb_first_witness :
    (nesUpdate initial hwIdle).last_read_controller_bytes 0 = 0 ∧
    (nesBuildReport (nesUpdate initial hwIdle) (some zero3) 0).2.1 = some ![128, 128, 0] :=
  ⟨((nesUpdate_msb_first initial hwIdle).2 (by decide)).1,
    ((nesUpdate_msb_first initial hwIdle).2 (by decide)).2 zero3 0⟩

end NES

/-! ## TG16: read, translation and the end-to-end scenario -/

namespace TG16

set_option maxRecDepth 100000 in
theorem bank_nibble (p : Byte) :
    (toByte ((p.val &&& 0x3c) >>> 2)).val = (p.val &&& 0x3c) >>> 2 ∧
    (p.val &&& 0x3c) >>> 2 < 16 := by
  revert p
  decide

set_option maxRecDepth 100000 in
theorem pack_nibbles : ∀ a < 16, ∀ b < 16,
    (toByte ((toByte a).val ||| ((toByte b).val <<< 4))).val &&& 0x0f = a ∧
    (toByte ((toByte a).val ||| ((toByte b).val <<< 4))).val >>> 4 = b := by
  decide

theorem readController_all_high (pincA pincB : Byte)
    (hA : pincA.val &&& 0x3c = 0x3c) (hB : pincB.val &&& 0x3c = 0x3c) :
    readController pincA pincB = 0xff := by
  simp only [readController, hA, hB]
  decide

theorem tg16_Update_last_read (s : State) (pincA pincB : Byte) :
    (tg16_Update s pincA pincB).last_read_controller_bytes
      = (tg16_Update initial pincA pincB).last_read_controller_bytes := rfl

theorem tg16_Update_idle (s : State) (pincA pincB : Byte)
    (hA : pincA.val &&& 0x3c = 0x3c) (hB : pincB.val &&& 0x3c = 0x3c) :
    (tg16_Update s pincA pincB).last_read_controller_bytes = ![128, 128, 0] := by
  rw [tg16_Update_last_read]
  simp only [tg16_Update, readController_all_high pincA pincB hA hB]
  decide

set_option maxRecDepth 100000 in
/-- C12: `readController` returns bank A (port bits 2..5 at the read with
data-select high) in the low nibble and bank B in the high nibble;
`tg16_Update` sets button bit 0 iff packed bit 7 read low, bit 1 iff bit 6,
bit 2 iff bit 5, bit 3 iff bit 4, and leaves button bits 4..7 clear; with all
four input lines high in both banks the state is `(128, 128, 0)`. -/
theorem tg16_read_and_translate (s : State) (pincA pincB : Byte) :
    (readController pincA pincB).val &&& 0x0f = (pincA.val &&& 0x3c) >>> 2 ∧
    (readController pincA pincB).val >>> 4 = (pincB.val &&& 0x3c) >>> 2 ∧
    ((tg16_Update s pincA pincB).last_read_controller_bytes 2).val.testBit 0
      = !(readController pincA pincB).val.testBit 7 ∧
    ((tg16_Update s pincA pincB).last_read_controller_bytes 2).val.testBit 1
      = !(readController pincA pincB).val.testBit 6 ∧
    ((tg16_Update s pincA pincB).last_read_controller_bytes 2).val.testBit 2
      = !(readController pincA pincB).val.testBit 5 ∧
    ((tg16_Update s pincA pincB).last_read_controller_bytes 2).val.testBit 3
      = !(readController pincA pincB).val.testBit 4 ∧
    ((tg16_Update s pincA pincB).last_read_controller_bytes 2).val &&& 0xf0 = 0 ∧
    (pincA.val &&& 0x3c = 0x3c → pincB.val &&& 0x3c = 0x3c →
      (tg16_Update s pincA pincB).last_read_controller_bytes = ![128, 128, 0]) := by
  have hpack : (readController pincA pincB).val &&& 0x0f = (pincA.val &&& 0x3c) >>> 2 ∧
      (readController pincA pincB).val >>> 4 = (pincB.val &&& 0x3c) >>> 2 := by
    have h := pack_nibbles _ (bank_nibble pincA).2 _ (bank_nibble pincB).2
    exact h
  refine ⟨hpack.1, hpack.2, ?_⟩
  have hidle := tg16_Update_idle s pincA pincB
  rw [tg16_Update_last_read] at hidle ⊢
  refine ⟨?_, ?_, ?_, ?_, ?_, hidle⟩ <;>
  · simp only [tg16_Update]
    generalize readController pincA pincB = p
    revert p
    decide

theorem tg16_read_and_translate_witness :
    (tg16_Update initial 0x3c 0x3c).last_read_controller_bytes = ![128, 128, 0] :=
  (tg16_read_and_translate initial 0x3c 0x3c).2.2.2.2.2.2.2 (by decide) (by decide)

/-- C13, as the claim states it, fails: after `tg16_Init` with all input lines
high, a first `tg16_Changed` (which returns 1) and a `tg16_Update` that samples
the same levels, `tg16_Changed` returns nonzero, because no report was built
and the last-reported bytes are still `(0, 0, 0)`. -/
theorem tg16_scenario_counterexample :
    (tg16_Changed (tg16_Init initial 0x3c 0x3c).2 0).1 = 1 ∧
    (tg16_Changed (tg16_Update (tg16_Changed (tg16_Init initial 0x3c 0x3c).2 0).2
      0x3c 0x3c) 0).1 ≠ 0 := by
  decide

/-- C13, amended: after `tg16_Init` from program start with all input lines
high the state is `(128, 128, 0)` and the first `tg16_Changed` returns 1; if a
report is then built (with or without a buffer) and a `tg16_Update` samples the
same levels, `tg16_Changed` returns 0; without the report build it returns
nonzero. -/
theorem tg16_scenario (pincA pincB : Byte)
    (hA : pincA.val &&& 0x3c = 0x3c) (hB : pincB.val &&& 0x3c = 0x3c)
    (rb : Option (Bytes 3)) (id1 id2 id3 : Int) :
    (tg16_Init initial pincA pincB).2.last_read_controller_bytes = ![128, 128, 0] ∧
    (tg16_Changed (tg16_Init initial pincA pincB).2 id1).1 = 1 ∧
    (tg16_Changed (tg16_Update (tg16_BuildReport
      (tg16_Changed (tg16_Init initial pincA pincB).2 id1).2 rb id2).2.2 pincA pincB) id3).1 = 0 ∧
    (tg16_Changed (tg16_Update (tg16_Changed (tg16_Init initial pincA pincB).2 id1).2
      pincA pincB) id3).1 ≠ 0 := by
  have hidle := tg16_Update_idle initial pincA pincB hA hB
  refine ⟨hidle, rfl, ?_, ?_⟩
  · by_contra hne
    rcases (tg16_Changed_ne_zero_iff _ _).1 hne with hf | hd
    · exact hf rfl
    · apply hd
      rw [tg16_Update_last_read, hidle]
      exact hidle.symm
  · rw [tg16_Changed_ne_zero_iff]
    right
    have hrep : (tg16_Update (tg16_Changed (tg16_Init initial pincA pincB).2 id1).2
        pincA pincB).last_reported_controller_bytes = fun _ => 0 := rfl
    rw [tg16_Update_last_read, hidle, hrep]
    intro h
    have h0 := congrFun h 0
    revert h0
    decide

theorem tg16_scenario_witness :
    (tg16_Changed (tg16_Update (tg16_BuildReport
      (tg16_Changed (tg16_Init initial 0xff 0xff).2 0).2 none 0).2.2 0xff 0xff) 0).1 = 0 :=
  (tg16_scenario 0xff 0xff (by decide) (by decide) none 0 0 0).2.2.1

end TG16

/-! ## DB9: button order -/

namespace DB9

theorem readController_full (cur_id : Byte) (hw : Reads) (bits : Bytes 5)
    (h : ¬ (cur_id = CTL_ID_ATARI ∨ cur_id = CTL_ID_SMS)) :
    readController cur_id hw bits 0 = SAMPLE hw.pa ∧
    readController cur_id hw bits 1 = SAMPLE hw.pb ∧
    readController cur_id hw bits 2 = SAMPLE hw.pc ∧
    readController cur_id hw bits 3 = SAMPLE hw.pd ∧
    readController cur_id hw bits 4 = SAMPLE hw.pe := by
  simp only [readController, h, if_false]
  simp [Function.update]

theorem readController_single (cur_id : Byte) (hw : Reads) (bits : Bytes 5)
    (h : cur_id = CTL_ID_ATARI ∨ cur_id = CTL_ID_SMS) :
    readController cur_id hw bits 0 = SAMPLE hw.pa ∧
    readController cur_id hw bits 1 = 0xff ∧
    readController cur_id hw bits 2 = 0xff ∧
    readController cur_id hw bits 3 = bits 3 ∧
    readController cur_id hw bits 4 = bits 4 := by
  simp only [readController, h, if_true]
  simp [Function.update]

/-- C14: with stored kind Genesis6, `db9Update` reports the buttons in the
order Y, B, C, Z, A, Mode (bits 0 to 5 of state byte 2) and X, Start (bits 0
and 1 of state byte 3), each set iff its line read low in the sample the
source takes it from (`bits[0]`, `bits[1]`, `bits[2]` are the samples `a`,
`b`, `c`); every other bit of bytes 2 and 3 is zero. -/
theorem db9Update_genesis6_order (s : State) (hw : Reads) (data0 bits : Bytes 5)
    (hbits : bits = readController s.cur_id hw data0) (h6 : s.cur_id = CTL_ID_GENESIS6) :
    (bits 0 = SAMPLE hw.pa ∧ bits 1 = SAMPLE hw.pb ∧ bits 2 = SAMPLE hw.pc) ∧
    ((db9Update s hw data0).last_read_controller_bytes 2).val.testBit 0
      = !(bits 2).val.testBit 1 ∧
    ((db9Update s hw data0).last_read_controller_bytes 2).val.testBit 1
      = !(bits 0).val.testBit 4 ∧
    ((db9Update s hw data0).last_read_controller_bytes 2).val.testBit 2
      = !(bits 0).val.testBit 5 ∧
    ((db9Update s hw data0).last_read_controller_bytes 2).val.testBit 3
      = !(bits 2).val.testBit 0 ∧
    ((db9Update s hw data0).last_read_controller_bytes 2).val.testBit 4
      = !(bits 1).val.testBit 4 ∧
    ((db9Update s hw data0).last_read_controller_bytes 2).val.testBit 5
      = !(bits 2).val.testBit 3 ∧
    ((db9Update s hw data0).last_read_controller_bytes 2).val &&& 0xc0 = 0 ∧
    ((db9Update s hw data0).last_read_controller_bytes 3).val.testBit 0
      = !(bits 2).val.testBit 2 ∧
    ((db9Update s hw data0).last_read_controller_bytes 3).val.testBit 1
      = !(bits 1).val.testBit 5 ∧
    ((db9Update s hw data0).last_read_controller_bytes 3).val &&& 0xfc = 0 := by
  have hb := db9Update_buttons_genesis6 s hw data0 bits hbits h6
  have hfull := readController_full s.cur_id hw data0 (by rw [h6]; decide)
  refine ⟨by rw [hbits]; exact ⟨hfull.1, hfull.2.1, hfull.2.2.1⟩, ?_⟩
  rw [hb.1, hb.2]
  generalize (bits 2).val.testBit 0 = z
  generalize (bits 2).val.testBit 1 = y
  generalize (bits 2).val.testBit 2 = x
  generalize (bits 2).val.testBit 3 = m
  generalize (bits 0).val.testBit 4 = b
  generalize (bits 0).val.testBit 5 = c
  generalize (bits 1).val.testBit 4 = a
  generalize (bits 1).val.testBit 5 = st
  revert z y x m b c a st
  decide

theorem db9Update_genesis6_order_witness :
    ((db9Update (db9Init initial hwGenesis6 hwGenesis6 zero5 zero5).2 hwGenesis6
        zero5).last_read_controller_bytes 2).val.testBit 1
      = !(readController (db9Init initial hwGenesis6 hwGenesis6 zero5 zero5).2.cur_id
        hwGenesis6 zero5 0).val.testBit 4 :=
  (db9Update_genesis6_order (db9Init initial hwGenesis6 hwGenesis6 zero5 zero5).2 hwGenesis6
    zero5 _ rfl (by decide)).2.2.1

/-- C15: with stored kind Atari or SMS, `db9Update` reports the first fire
button (bit 4 of the phase-1 sample low) as bit 0 of state byte 2 and the
second (bit 5 low) as bit 1 of state byte 2; no other bit of byte 2 and no bit
of byte 3 is set. -/
theorem db9Update_joystick_buttons (s : State) (hw : Reads) (data0 : Bytes 5)
    (h : s.cur_id = CTL_ID_ATARI ∨ s.cur_id = CTL_ID_SMS) :
    ((db9Update s hw data0).last_read_controller_bytes 2).val.testBit 0
      = !(SAMPLE hw.pa).val.testBit 4 ∧
    ((db9Update s hw data0).last_read_controller_bytes 2).val.testBit 1
      = !(SAMPLE hw.pa).val.testBit 5 ∧
    ((db9Update s hw data0).last_read_controller_bytes 2).val &&& 0xfc = 0 ∧
    (db9Update s hw data0).last_read_controller_bytes 3 = 0 := by
  have hb := db9Update_buttons_joystick s hw data0 h
  rw [hb.1, hb.2]
  generalize (SAMPLE hw.pa).val.testBit 4 = b1
  generalize (SAMPLE hw.pa).val.testBit 5 = b2
  revert b1 b2
  decide

theorem db9Update_joystick_buttons_witness :
    (db9Init initial hwIdle hwIdle zero5 zero5).2.cur_id = CTL_ID_SMS ∧
    ((db9Update (db9Init initial hwIdle hwIdle zero5 zero5).2 hwFire
        zero5).last_read_controller_bytes 2).val.testBit 0 = !(SAMPLE hwFire.pa).val.testBit 4 :=
  ⟨by decide,
    (db9Update_joystick_buttons (db9Init initial hwIdle hwIdle zero5 zero5).2 hwFire zero5
      (Or.inr (by decide))).1⟩

end DB9

/-! ## Axes -/

set_option maxRecDepth 100000 in
theorem axis_values_db9 (p : Byte) :
    (toByte (if (toByte (p.val ^^^ 0xff)).val &&& 8 ≠ 0 then 255
        else if (toByte (p.val ^^^ 0xff)).val &&& 4 ≠ 0 then 0 else 128)
      = if !p.val.testBit 3 then 255 else if !p.val.testBit 2 then 0 else 128) ∧
    (toByte (if (toByte (p.val ^^^ 0xff)).val &&& 2 ≠ 0 then 255
        else if (toByte (p.val ^^^ 0xff)).val &&& 1 ≠ 0 then 0 else 128)
      = if !p.val.testBit 1 then 255 else if !p.val.testBit 0 then 0 else 128) := by
  revert p
  decide

set_option maxRecDepth 100000 in
/-- C19: last-bit-wins axis precedence.  In `db9Update` and `tg16_Update`
y is 255 whenever Down is active, else 0 if Up is active, else 128, and x is
255 whenever Right is active, else 0 if Left is active, else 128 (a direction
is active when its line reads low); in `nesBuildReport` x is 0 whenever raw
bit 1 is set, else 255 if raw bit 0 is set, else 128, and y is 0 whenever raw
bit 3 is set, else 255 if raw bit 2 is set, else 128. -/
theorem axis_precedence :
    (∀ (s : DB9.State) (hw : DB9.Reads) (data0 : Bytes 5),
      (DB9.db9Update s hw data0).last_read_controller_bytes 1
        = (if !(DB9.SAMPLE hw.pa).val.testBit 1 then 255
           else if !(DB9.SAMPLE hw.pa).val.testBit 0 then 0 else 128) ∧
      (DB9.db9Update s hw data0).last_read_controller_bytes 0
        = (if !(DB9.SAMPLE hw.pa).val.testBit 3 then 255
           else if !(DB9.SAMPLE hw.pa).val.testBit 2 then 0 else 128)) ∧
    (∀ (s : TG16.State) (pincA pincB : Byte),
      (TG16.tg16_Update s pincA pincB).last_read_controller_bytes 1
        = (if !(TG16.readController pincA pincB).val.testBit 1 then 255
           else if !(TG16.readController pincA pincB).val.testBit 3 then 0 else 128) ∧
      (TG16.tg16_Update s pincA pincB).last_read_controller_bytes 0
        = (if !(TG16.readController pincA pincB).val.testBit 2 then 255
           else if !(TG16.readController pincA pincB).val.testBit 0 then 0 else 128)) ∧
    (∀ (s : NES.State) (buf : Bytes 3) (id : Int),
      ∃ out, (NES.nesBuildReport s (some buf) id).2.1 = some out ∧
        out 0 = (if (s.last_read_controller_bytes 0).val.testBit 1 then 0
           else if (s.last_read_controller_bytes 0).val.testBit 0 then 255 else 128) ∧
        out 1 = (if (s.last_read_controller_bytes 0).val.testBit 3 then 0
           else if (s.last_read_controller_bytes 0).val.testBit 2 then 255 else 128)) := by
  refine ⟨?_, ?_, ?_⟩
  · intro s hw data0
    have h := DB9.db9Update_axes s hw data0
    have hv := axis_values_db9 (DB9.SAMPLE hw.pa)
    exact ⟨h.2.trans hv.2, h.1.trans hv.1⟩
  · intro s pincA pincB
    rw [TG16.tg16_Update_last_read]
    simp only [TG16.tg16_Update]
    generalize TG16.readController pincA pincB = p
    revert p
    decide
  · intro s buf id
    refine ⟨_, rfl, ?_⟩
    simp only [Function.update_same, Function.update_noteq, ne_eq, Fin.reduceEq,
      not_false_eq_true]
    generalize s.last_read_controller_bytes 0 = r
    revert r
    decide
set_option maxRecDepth 100000 in
theorem axis_range_db9 (p : Byte) :
    (toByte (if (toByte (p.val ^^^ 0xff)).val &&& 8 ≠ 0 then 255
        else if (toByte (p.val ^^^ 0xff)).val &&& 4 ≠ 0 then 0 else 128) = 0 ∨
      toByte (if (toByte (p.val ^^^ 0xff)).val &&& 8 ≠ 0 then 255
        else if (toByte (p.val ^^^ 0xff)).val &&& 4 ≠ 0 then 0 else 128) = 128 ∨
      toByte (if (toByte (p.val ^^^ 0xff)).val &&& 8 ≠ 0 then 255
        else if (toByte (p.val ^^^ 0xff)).val &&& 4 ≠ 0 then 0 else 128) = 255) ∧
    (toByte (if (toByte (p.val ^^^ 0xff)).val &&& 2 ≠ 0 then 255
        else if (toByte (p.val ^^^ 0xff)).val &&& 1 ≠ 0 then 0 else 128) = 0 ∨
      toByte (if (toByte (p.val ^^^ 0xff)).val &&& 2 ≠ 0 then 255
        else if (toByte (p.val ^^^ 0xff)).val &&& 1 ≠ 0 then 0 else 128) = 128 ∨
      toByte (if (toByte (p.val ^^^ 0xff)).val &&& 2 ≠ 0 then 255
        else if (toByte (p.val ^^^ 0xff)).val &&& 1 ≠ 0 then 0 else 128) = 255) ∧
    (p.val &&& 0x0f = 0x0f →
      toByte (if (toByte (p.val ^^^ 0xff)).val &&& 8 ≠ 0 then 255
        else if (toByte (p.val ^^^ 0xff)).val &&& 4 ≠ 0 then 0 else 128) = 128 ∧
      toByte (if (toByte (p.val ^^^ 0xff)).val &&& 2 ≠ 0 then 255
        else if (toByte (p.val ^^^ 0xff)).val &&& 1 ≠ 0 then 0 else 128) = 128) := by
  revert p
  decide

set_option maxRecDepth 100000 in
/-- C16: the two axis bytes produced by `db9Update` (for every stored kind),
by `tg16_Update` and by `nesBuildReport` are each 0, 128 or 255, and both are
128 when no directional bit is active (all four direction lines high for DB9
and TG16, raw bits 0..3 clear for NES). -/
theorem axes_quantized :
    (∀ (s : DB9.State) (hw : DB9.Reads) (data0 : Bytes 5),
      ((DB9.db9Update s hw data0).last_read_controller_bytes 0 = 0 ∨
        (DB9.db9Update s hw data0).last_read_controller_bytes 0 = 128 ∨
        (DB9.db9Update s hw data0).last_read_controller_bytes 0 = 255) ∧
      ((DB9.db9Update s hw data0).last_read_controller_bytes 1 = 0 ∨
        (DB9.db9Update s hw data0).last_read_controller_bytes 1 = 128 ∨
        (DB9.db9Update s hw data0).last_read_controller_bytes 1 = 255) ∧
      ((DB9.SAMPLE hw.pa).val &&& 0x0f = 0x0f →
        (DB9.db9Update s hw data0).last_read_controller_bytes 0 = 128 ∧
        (DB9.db9Update s hw data0).last_read_controller_bytes 1 = 128)) ∧
    (∀ (s : TG16.State) (pincA pincB : Byte),
      ((TG16.tg16_Update s pincA pincB).last_read_controller_bytes 0 = 0 ∨
        (TG16.tg16_Update s pincA pincB).last_read_controller_bytes 0 = 128 ∨
        (TG16.tg16_Update s pincA pincB).last_read_controller_bytes 0 = 255) ∧
      ((TG16.tg16_Update s pincA pincB).last_read_controller_bytes 1 = 0 ∨
        (TG16.tg16_Update s pincA pincB).last_read_controller_bytes 1 = 128 ∨
        (TG16.tg16_Update s pincA pincB).last_read_controller_bytes 1 = 255) ∧
      ((TG16.readController pincA pincB).val &&& 0x0f = 0x0f →
        (TG16.tg16_Update s pincA pincB).last_read_controller_bytes 0 = 128 ∧
        (TG16.tg16_Update s pincA pincB).last_read_controller_bytes 1 = 128)) ∧
    (∀ (s : NES.State) (buf : Bytes 3) (id : Int),
      ∃ out, (NES.nesBuildReport s (some buf) id).2.1 = some out ∧
        (out 0 = 0 ∨ out 0 = 128 ∨ out 0 = 255) ∧
        (out 1 = 0 ∨ out 1 = 128 ∨ out 1 = 255) ∧
        ((s.last_read_controller_bytes 0).val &&& 0x0f = 0 → out 0 = 128 ∧ out 1 = 128)) := by
  refine ⟨?_, ?_, ?_⟩
  · intro s hw data0
    have h := DB9.db9Update_axes s hw data0
    rw [h.1, h.2]
    exact axis_range_db9 (DB9.SAMPLE hw.pa)
  · intro s pincA pincB
    rw [TG16.tg16_Update_last_read]
    simp only [TG16.tg16_Update]
    generalize TG16.readController pincA pincB = p
    revert p
    decide
  · intro s buf id
    refine ⟨_, rfl, ?_⟩
    simp only [Function.update_same, Function.update_noteq, ne_eq, Fin.reduceEq,
      not_false_eq_true]
    generalize s.last_read_controller_bytes 0 = r
    revert r
    decide

theorem axes_quantized_witness :
    ((DB9.db9Update DB9.initial DB9.hwIdle DB9.zero5).last_read_controller_bytes 0 = 128 ∧
      (DB9.db9Update DB9.initial DB9.hwIdle DB9.zero5).last_read_controller_bytes 1 = 128) ∧
    ((TG16.tg16_Update TG16.initial 0x3c 0x3c).last_read_controller_bytes 0 = 128 ∧
      (TG16.tg16_Update TG16.initial 0x3c 0x3c).last_read_controller_bytes 1 = 128) ∧
    (∃ out, (NES.nesBuildReport NES.initial (some NES.zero3) 0).2.1 = some out ∧
      out 0 = 128 ∧ out 1 = 128) := by
  refine ⟨(axes_quantized.1 DB9.initial DB9.hwIdle DB9.zero5).2.2 (by decide),
    (axes_quantized.2.1 TG16.initial 0x3c 0x3c).2.2 (by decide), ?_⟩
  obtain ⟨out, h, _, _, h128⟩ := axes_quantized.2.2 NES.initial NES.zero3 0
  exact ⟨out, h, h128 (by decide)⟩

/-! ## Poll as a wholesale recomputation -/

namespace DB9

theorem db9Update_last_read_congr (s s' : State) (hw : Reads) (data0 data0' : Bytes 5)
    (h : s.cur_id = s'.cur_id) :
    (db9Update s hw data0).last_read_controller_bytes
      = (db9Update s' hw data0').last_read_controller_bytes := by
  have hl := readController_low s'.cur_id hw data0 data0'
  unfold db9Update
  simp only [upd_at0, upd_at1, upd_at2, upd1_at1, upd2_at2, h, hl.1, hl.2.1, hl.2.2]
  split_ifs <;> rfl

theorem db9Update_single_phase_congr (s s' : State) (hw hw' : Reads) (data0 data0' : Bytes 5)
    (h : s.cur_id = s'.cur_id) (hk : s'.cur_id = CTL_ID_ATARI ∨ s'.cur_id = CTL_ID_SMS)
    (hpa : hw.pa = hw'.pa) :
    (db9Update s hw data0).last_read_controller_bytes
      = (db9Update s' hw' data0').last_read_controller_bytes := by
  have h1 := readController_single s'.cur_id hw data0 hk
  have h2 := readController_single s'.cur_id hw' data0' hk
  unfold db9Update
  simp only [upd_at0, upd_at1, upd_at2, upd1_at1, upd2_at2, h, h1.1, h1.2.1, h1.2.2.1,
    h2.1, h2.2.1, h2.2.2.1, hpa]
  split_ifs <;> rfl

end DB9

/-- C17: poll is a wholesale recomputation.  For DB9 with a fixed stored kind
and for TG16, two updates that start from different current-state bytes,
last-reported bytes and first-call flag (and, for DB9, different contents of
the local sample array) but read the same input end with the same
current-state bytes, and the last-reported bytes are those from before the
update; with stored kind Atari or SMS only the phase-1 read matters. -/
theorem update_recomputes_state :
    (∀ (k : Byte) (lr lr' lrep lrep' : Bytes 4) (f f' : Int) (hw : DB9.Reads)
        (data0 data0' : Bytes 5),
      (DB9.db9Update ⟨k, lr, lrep, f⟩ hw data0).last_read_controller_bytes
        = (DB9.db9Update ⟨k, lr', lrep', f'⟩ hw data0').last_read_controller_bytes ∧
      (DB9.db9Update ⟨k, lr, lrep, f⟩ hw data0).last_reported_controller_bytes = lrep) ∧
    (∀ (lr lr' lrep lrep' : Bytes 4) (f f' : Int) (pa pb pd pe pc pb' pd' pe' pc' : Pins)
        (data0 data0' : Bytes 5),
      (DB9.db9Update ⟨DB9.CTL_ID_SMS, lr, lrep, f⟩ ⟨pa, pb, pd, pe, pc⟩
          data0).last_read_controller_bytes
        = (DB9.db9Update ⟨DB9.CTL_ID_SMS, lr', lrep', f'⟩ ⟨pa, pb', pd', pe', pc'⟩
          data0').last_read_controller_bytes ∧
      (DB9.db9Update ⟨DB9.CTL_ID_ATARI, lr, lrep, f⟩ ⟨pa, pb, pd, pe, pc⟩
          data0).last_read_controller_bytes
        = (DB9.db9Update ⟨DB9.CTL_ID_ATARI, lr', lrep', f'⟩ ⟨pa, pb', pd', pe', pc'⟩
          data0').last_read_controller_bytes) ∧
    (∀ (lr lr' lrep lrep' : Bytes 3) (f f' : Int) (pincA pincB : Byte),
      (TG16.tg16_Update ⟨lr, lrep, f⟩ pincA pincB).last_read_controller_bytes
        = (TG16.tg16_Update ⟨lr', lrep', f'⟩ pincA pincB).last_read_controller_bytes ∧
      (TG16.tg16_Update ⟨lr, lrep, f⟩ pincA pincB).last_reported_controller_bytes = lrep) := by
  refine ⟨?_, ?_, ?_⟩
  · intro k lr lr' lrep lrep' f f' hw data0 data0'
    exact ⟨DB9.db9Update_last_read_congr _ _ hw data0 data0' rfl,
      DB9.db9Update_last_reported _ hw data0⟩
  · intro lr lr' lrep lrep' f f' pa pb pd pe pc pb' pd' pe' pc' data0 data0'
    exact ⟨DB9.db9Update_single_phase_congr _ _ _ _ data0 data0' rfl (Or.inr rfl) rfl,
      DB9.db9Update_single_phase_congr _ _ _ _ data0 data0' rfl (Or.inl rfl) rfl⟩
  · intro lr lr' lrep lrep' f f' pincA pincB
    exact ⟨rfl, rfl⟩

/-! ## DB9: the single-phase read and re-initialization -/

namespace DB9

theorem db9Init_from_single_phase (s : State) (idRead pollRead : Reads) (bits0 data0 : Bytes 5)
    (hk : s.cur_id = CTL_ID_ATARI ∨ s.cur_id = CTL_ID_SMS) :
    (db9Init s idRead pollRead bits0 data0).2.cur_id = CTL_ID_SMS := by
  have hs := readController_single s.cur_id idRead bits0 hk
  by_cases h0 : ((readController s.cur_id idRead bits0) 0).val &&& 0xf = 0x3
  · simp [db9Init, h0]
  · rw [db9Init_cur_id s idRead pollRead bits0 data0 h0, hs.2.1]
    have e1 : ¬ ((0xff : Byte).val &&& 0x20 = 0) := by decide
    have e2 : ¬ ((0xff : Byte).val &&& 0xf = 0x3) := by decide
    simp only [e1, e2, if_false, and_false]

theorem db9Init_result_eq (s s' : State) (idRead pollRead pollRead' : Reads)
    (bits0 data0 bits0' data0' : Bytes 5) :
    (db9Init s idRead pollRead bits0 data0).1 = (db9Init s' idRead pollRead' bits0' data0').1 := by
  simp only [db9Init, readController_zero]
  split <;> rfl

/-- C18: the code at a second `db9Init`.  The result returned by `db9Init`
does not depend on the kind stored before the call, but the stored kind does:
when the kind stored before the call is SMS or Atari, `db9Init` stores SMS
whatever the hardware presents.  After a first `db9Init` with no controller
attached (stored kind SMS), a second `db9Init` on hardware presenting the
Genesis6 nibbles `(0xf, 0x3, 0x3, 0x0, 0x0)` stores SMS, while the same call
from program start stores Genesis6. -/
theorem db9Init_reinit_stale_kind :
    (∀ (s s' : State) (idRead pollRead : Reads) (bits0 data0 : Bytes 5),
      (db9Init s idRead pollRead bits0 data0).1 = (db9Init s' idRead pollRead bits0 data0).1) ∧
    (∀ (lr lrep : Bytes 4) (f : Int) (idRead pollRead : Reads) (bits0 data0 : Bytes 5),
      (db9Init ⟨CTL_ID_SMS, lr, lrep, f⟩ idRead pollRead bits0 data0).2.cur_id = CTL_ID_SMS ∧
      (db9Init ⟨CTL_ID_ATARI, lr, lrep, f⟩ idRead pollRead bits0 data0).2.cur_id
        = CTL_ID_SMS) ∧
    (db9Init initial hwIdle hwIdle zero5 zero5).1 = 0 ∧
    (db9Init initial hwIdle hwIdle zero5 zero5).2.cur_id = CTL_ID_SMS ∧
    (db9Init (db9Init initial hwIdle hwIdle zero5 zero5).2 hwGenesis6 hwGenesis6 zero5
      zero5).2.cur_id = CTL_ID_SMS ∧
    (db9Init initial hwGenesis6 hwGenesis6 zero5 zero5).2.cur_id = CTL_ID_GENESIS6 := by
  refine ⟨?_, ?_, by decide, by decide, by decide, by decide⟩
  · intro s s' idRead pollRead bits0 data0
    exact db9Init_result_eq s s' idRead pollRead pollRead bits0 data0 bits0 data0
  · intro lr lrep f idRead pollRead bits0 data0
    exact ⟨db9Init_from_single_phase _ idRead pollRead bits0 data0 (Or.inr rfl),
      db9Init_from_single_phase _ idRead pollRead bits0 data0 (Or.inl rfl)⟩

/-- C20, as the claim states it, fails: with stored kind SMS and all
input lines high, `readController` called on an array of five zero bytes
returns with elements 3 and 4 equal to 0, not `0xff`. -/
theorem readController_single_phase_counterexample :
    readController CTL_ID_SMS hwIdle zero5 3 = 0 ∧
    readController CTL_ID_SMS hwIdle zero5 4 = 0 ∧
    readController CTL_ID_SMS hwIdle zero5 3 ≠ 0xff ∧
    readController CTL_ID_SMS hwIdle zero5 4 ≠ 0xff := by
  decide

/-- C20, amended: with stored kind SMS or Atari, `readController` performs
only phase 1: it stores the phase-1 sample in element 0 and `0xff` in elements
1 and 2, and does not write elements 3 and 4 (the detection samples `d` and
`e`), which are what the caller's array held on entry; what the hardware
presents in phases 2 to 5 has no influence on the result. -/
theorem readController_single_phase_elements :
    (∀ (hw : Reads) (bits : Bytes 5),
      readController CTL_ID_SMS hw bits 0 = SAMPLE hw.pa ∧
      readController CTL_ID_SMS hw bits 1 = 0xff ∧
      readController CTL_ID_SMS hw bits 2 = 0xff ∧
      readController CTL_ID_SMS hw bits 3 = bits 3 ∧
      readController CTL_ID_SMS hw bits 4 = bits 4) ∧
    (∀ (hw : Reads) (bits : Bytes 5),
      readController CTL_ID_ATARI hw bits 0 = SAMPLE hw.pa ∧
      readController CTL_ID_ATARI hw bits 1 = 0xff ∧
      readController CTL_ID_ATARI hw bits 2 = 0xff ∧
      readController CTL_ID_ATARI hw bits 3 = bits 3 ∧
      readController CTL_ID_ATARI hw bits 4 = bits 4) ∧
    (∀ (pa pb pd pe pc pb' pd' pe' pc' : Pins) (bits : Bytes 5),
      readController CTL_ID_SMS ⟨pa, pb, pd, pe, pc⟩ bits
        = readController CTL_ID_SMS ⟨pa, pb', pd', pe', pc'⟩ bits ∧
      readController CTL_ID_ATARI ⟨pa, pb, pd, pe, pc⟩ bits
        = readController CTL_ID_ATARI ⟨pa, pb', pd', pe', pc'⟩ bits) := by
  refine ⟨?_, ?_, ?_⟩
  · intro hw bits
    exact readController_single CTL_ID_SMS hw bits (Or.inr rfl)
  · intro hw bits
    exact readController_single CTL_ID_ATARI hw bits (Or.inl rfl)
  · intro pa pb pd pe pc pb' pd' pe' pc' bits
    constructor
    · simp only [readController, or_true, if_true]
    · simp only [readController, true_or, if_true]

end DB9

/-! ## DB9: reachable kinds -/

namespace DB9

theorem db9Init_kind (s : State) (idRead pollRead : Reads) (bits0 data0 : Bytes 5) :
    (db9Init s idRead pollRead bits0 data0).2.cur_id = CTL_ID_SMS ∨
    (db9Init s idRead pollRead bits0 data0).2.cur_id = CTL_ID_GENESIS3 ∨
    (db9Init s idRead pollRead bits0 data0).2.cur_id = CTL_ID_GENESIS6 := by
  by_cases h0 : ((readController s.cur_id idRead bits0) 0).val &&& 0xf = 0x3
  · left
    simp [db9Init, h0]
  · rw [db9Init_cur_id s idRead pollRead bits0 data0 h0]
    split_ifs <;> simp

theorem db9Changed_cur_id (s : State) (id : Int) : (db9Changed s id).2.cur_id = s.cur_id := by
  unfold db9Changed
  split <;> rfl

theorem db9BuildReport_cur_id (s : State) (rb : Option (Bytes 4)) (id : Int) :
    (db9BuildReport s rb id).2.2.cur_id = s.cur_id := rfl

theorem step_kind (s : State) (o : Op)
    (h : s.cur_id = CTL_ID_SMS ∨ s.cur_id = CTL_ID_GENESIS3 ∨ s.cur_id = CTL_ID_GENESIS6) :
    (step s o).cur_id = CTL_ID_SMS ∨ (step s o).cur_id = CTL_ID_GENESIS3 ∨
      (step s o).cur_id = CTL_ID_GENESIS6 := by
  cases o with
  | init idRead pollRead bits0 data0 => exact db9Init_kind s idRead pollRead bits0 data0
  | update hw data0 =>
    simp only [step, db9Update_cur_id]
    exact h
  | changed id =>
    simp only [step, db9Changed_cur_id]
    exact h
  | buildReport reportBuffer id =>
    simp only [step, db9BuildReport_cur_id]
    exact h

theorem run_kind (s : State) (ops : List Op)
    (h : s.cur_id = CTL_ID_SMS ∨ s.cur_id = CTL_ID_GENESIS3 ∨ s.cur_id = CTL_ID_GENESIS6) :
    (run s ops).cur_id = CTL_ID_SMS ∨ (run s ops).cur_id = CTL_ID_GENESIS3 ∨
      (run s ops).cur_id = CTL_ID_GENESIS6 := by
  induction ops generalizing s with
  | nil => exact h
  | cons o ops ih => exact ih (step s o) (step_kind s o h)

theorem kind_ne_atari (k : Byte)
    (h : k = CTL_ID_SMS ∨ k = CTL_ID_GENESIS3 ∨ k = CTL_ID_GENESIS6) : k ≠ CTL_ID_ATARI := by
  rcases h with h | h | h <;> rw [h] <;> decide

/-- C21: the kind stored by `db9Init` is SMS, Genesis3 or Genesis6 and never
Atari, for every prior state and every identification read; `db9Update`,
`db9Changed` and `db9BuildReport` leave the stored kind as it is; hence after
every sequence of calls from program start (kind Genesis3) the kind is SMS,
Genesis3 or Genesis6, never Atari, and the test
`cur_id == CTL_ID_ATARI || cur_id == CTL_ID_SMS` of `readController` holds
only through its SMS half. -/
theorem reachable_kind_never_atari :
    (∀ (s : State) (idRead pollRead : Reads) (bits0 data0 : Bytes 5),
      ((db9Init s idRead pollRead bits0 data0).2.cur_id = CTL_ID_SMS ∨
        (db9Init s idRead pollRead bits0 data0).2.cur_id = CTL_ID_GENESIS3 ∨
        (db9Init s idRead pollRead bits0 data0).2.cur_id = CTL_ID_GENESIS6) ∧
      (db9Init s idRead pollRead bits0 data0).2.cur_id ≠ CTL_ID_ATARI) ∧
    (∀ (s : State) (hw : Reads) (data0 : Bytes 5), (db9Update s hw data0).cur_id = s.cur_id) ∧
    (∀ (s : State) (id : Int), (db9Changed s id).2.cur_id = s.cur_id) ∧
    (∀ (s : State) (rb : Option (Bytes 4)) (id : Int),
      (db9BuildReport s rb id).2.2.cur_id = s.cur_id) ∧
    initial.cur_id = CTL_ID_GENESIS3 ∧
    (∀ (ops : List Op),
      ((run initial ops).cur_id = CTL_ID_SMS ∨ (run initial ops).cur_id = CTL_ID_GENESIS3 ∨
        (run initial ops).cur_id = CTL_ID_GENESIS6) ∧
      (run initial ops).cur_id ≠ CTL_ID_ATARI ∧
      (((run initial ops).cur_id = CTL_ID_ATARI ∨ (run initial ops).cur_id = CTL_ID_SMS) ↔
        (run initial ops).cur_id = CTL_ID_SMS)) := by
  refine ⟨?_, db9Update_cur_id, db9Changed_cur_id, db9BuildReport_cur_id, rfl, ?_⟩
  · intro s idRead pollRead bits0 data0
    have h := db9Init_kind s idRead pollRead bits0 data0
    exact ⟨h, kind_ne_atari _ h⟩
  · intro ops
    have h := run_kind initial ops (Or.inr (Or.inl rfl))
    have hne := kind_ne_atari _ h
    refine ⟨h, hne, ?_⟩
    constructor
    · rintro (ha | hs)
      · exact absurd ha hne
      · exact hs
    · intro hs
      exact Or.inr hs

end DB9

end Pixelkit
